import Mathlib

/-!
Shallow embedding of the nes-emu-ts emulator core, together with proofs that
settle the specification claims C1 to C10 against the code.

The embedding translates the TypeScript sources:
  register.ts (the Register primitive; an alternate older version also exists),
  rom.ts / romHeader.ts / the Mapper000 class (cartridge),
  the Bus (the version with controller latches and the system clock),
  the PPU (the version with the loopy registers and the background pipeline),
  cpu.ts (the 6502 interpreter, full opcode table and handlers).

Machine integers are modelled as Nat with explicit masking.  JavaScript
bitwise operators work on 32-bit two's complement; the helpers below compute
the corresponding bit patterns as Nat in [0, 2^32).  Typed arrays
(Uint8Array/Uint16Array) mask each store to the element width; out-of-bounds
reads yield `undefined` and out-of-bounds writes are discarded, which the ROM
model reproduces via an explicit JsVal type.
-/

namespace NesEmu

/-- 2^32, the modulus of JavaScript 32-bit bitwise arithmetic. -/
def U32 : Nat := 4294967296

/-- Bit pattern (as a Nat below 2^32) of a JavaScript number after ToInt32 /
ToUint32 conversion; negative values become their two's complement. -/
def u32ofInt (i : Int) : Nat := (i.emod (U32 : Int)).toNat

/-- JavaScript bitwise NOT on a 32-bit pattern. -/
def jsNot (n : Nat) : Nat := (U32 - 1) - (n % U32)

/-- JavaScript left shift: the low 32 bits of `n <<< k`. -/
def jsShl (n k : Nat) : Nat := (n <<< k) % U32

/-- `isInRange` from utils.ts: inclusive on both ends. -/
def isInRange (val start stop : Nat) : Bool := start ≤ val && val ≤ stop

/-! ## Register primitive (register.ts)

A register cell of width `w` bits (8 or 16) is a Nat strictly below `2 ^ w`;
each operation returns the new cell contents.  `Register.storeBit` takes an
Int value because some call sites pass results of JavaScript `~`, which are
negative. -/

namespace Register

/-- Mask of a `w`-bit cell. -/
def cellMask (w : Nat) : Nat := 2 ^ w - 1

/-- `getBit(pos)`: `(data[0] >> pos) & 1`. -/
def getBit (store pos : Nat) : Nat := (store >>> pos) &&& 1

/-- `getBits({pos, width})`: `(data[0] >> pos) & ((1 << width) - 1)`. -/
def getBits (store pos width : Nat) : Nat := (store >>> pos) &&& ((1 <<< width) - 1)

/-- `setBit(pos)`: `data[0] |= 1 << pos`. -/
def setBit (w store pos : Nat) : Nat := (store ||| (1 <<< pos)) &&& cellMask w

/-- `clearBit(pos)`: `data[0] &= ~(1 << pos)`. -/
def clearBit (w store pos : Nat) : Nat := (store &&& jsNot (1 <<< pos)) &&& cellMask w

/-- `storeBit(pos, val)`: clear the bit, then `val <<= pos; data[0] |= val`.
The value is not restricted to 0/1 by the source. -/
def storeBit (w store pos : Nat) (val : Int) : Nat :=
  ((store &&& jsNot (1 <<< pos)) ||| jsShl (u32ofInt val) pos) &&& cellMask w

/-- `storeBits(val, {pos, width})` as in the current register.ts: the mask and
the value are shifted by `width` (the `pos` component is never used), and the
result is combined with a single `&=`:
`val &= mask; data[0] &= (~(mask << width) | (val << width))`. -/
def storeBits (w store : Nat) (val : Nat) (pos width : Nat) : Nat :=
  let mask := (1 <<< width) - 1
  let v := val &&& mask
  let _ := pos
  (store &&& (jsNot (jsShl mask width) ||| jsShl v width)) &&& cellMask w

/-- `storeBits(val, {pos, width})` of the alternate (older) Register version:
`val &= ones; data[0] &= ~(ones << pos); val <<= pos; data[0] |= val`. -/
def storeBitsAlt (w store : Nat) (val : Nat) (pos width : Nat) : Nat :=
  let ones := (1 <<< width) - 1
  let v := val &&& ones
  ((store &&& jsNot (jsShl ones pos)) ||| jsShl v pos) &&& cellMask w

/-- `setReg(newVal)`: typed-array store masks to the cell width (call sites
pass non-negative values). -/
def setReg (w v : Nat) : Nat := v % 2 ^ w

/-- `incr()`: `data[0]++`, wrapping. -/
def incr (w store : Nat) : Nat := (store + 1) % 2 ^ w

/-- `decr()`: `data[0]--`, wrapping. -/
def decr (w store : Nat) : Nat := (store + (2 ^ w - 1)) % 2 ^ w

/-- `shiftLeft()`: `data[0] <<= 1`, truncated to the cell width. -/
def shiftLeft (w store : Nat) : Nat := (store <<< 1) &&& cellMask w

/-- `add(val)`: `data[0] += val`, wrapping (call sites pass non-negative). -/
def add (w store v : Nat) : Nat := (store + v) % 2 ^ w

end Register

/-! ## Cartridge: iNES header, Mapper000, ROM (romHeader.ts, mapper000.ts, rom.ts) -/

/-- Nametable mirroring mode from flags6 bit 0 of the iNES header. -/
inductive Mirroring where
  | HORIZONTAL
  | VERTICAL
  deriving DecidableEq, Repr

/-- The parsed iNES header fields the core uses: byte 4 (PRG-ROM size in
16 KiB units), byte 5 (CHR-ROM size in 8 KiB units, 0 meaning CHR-RAM) and
the mirroring bit of flags6. -/
structure Header where
  prgUnits : Nat
  chrUnits : Nat
  mirroring : Mirroring
  deriving DecidableEq, Repr

/-- Mapper 0 (NROM) state: the two numbers its constructor receives. -/
structure Mapper000 where
  PRGROMsize : Nat
  CHRROMsize : Nat
  deriving DecidableEq, Repr

namespace Mapper000

/-- `cpuMapRead`: `[0x8000, 0xFFFF]` maps to
`address & (PRGROMsize > 1 ? 0x7FFF : 0x3FFF)`; otherwise declined. -/
def cpuMapRead (m : Mapper000) (address : Nat) : Option Nat :=
  if isInRange address 0x8000 0xFFFF then
    some (address &&& (if m.PRGROMsize > 1 then 0x7FFF else 0x3FFF))
  else
    none

/-- `cpuMapWrite`: same mapping as `cpuMapRead`. -/
def cpuMapWrite (m : Mapper000) (address : Nat) : Option Nat :=
  if isInRange address 0x8000 0xFFFF then
    some (address &&& (if m.PRGROMsize > 1 then 0x7FFF else 0x3FFF))
  else
    none

/-- `ppuMapRead`: identity on `[0x0000, 0x1FFF]`, declined elsewhere. -/
def ppuMapRead (m : Mapper000) (address : Nat) : Option Nat :=
  let _ := m
  if isInRange address 0x0000 0x1FFF then some address else none

/-- `ppuMapWrite`: identity on `[0x0000, 0x1FFF]` when `CHRROMsize === 0`.
In the source the in-range/CHR-not-zero path falls off the function and yields
`undefined`; every caller tests the result only for truthiness, where
`undefined` and `null` agree, so both are `none` here. -/
def ppuMapWrite (m : Mapper000) (address : Nat) : Option Nat :=
  if isInRange address 0x0000 0x1FFF then
    if m.CHRROMsize == 0 then some address else none
  else
    none

end Mapper000

/-- A JavaScript value as it flows out of the ROM accessors: `null` (the
decline sentinel), `undefined` (an out-of-bounds typed-array read), or a
number. -/
inductive JsVal where
  | null
  | undefined
  | num (n : Nat)
  deriving DecidableEq, Repr

namespace JsVal

/-- JavaScript truthiness of the three cases (`0`, `null` and `undefined` are
falsy). -/
def truthy : JsVal → Bool
  | .num n => n != 0
  | _ => false

/-- Numeric coercion used where the emulator feeds a bus-read result into
arithmetic.  For byte-valued memories (the only states reachable in
JavaScript) the `undef` case never arises there; JavaScript would produce NaN. -/
def toNat : JsVal → Nat
  | .num n => n
  | _ => 0

end JsVal

/-- `PRG_ROM_SIZE` from rom.ts: one PRG bank in bytes. -/
def PRG_ROM_SIZE : Nat := 16384

/-- `CHR_ROM_SIZE` from rom.ts: one CHR bank in bytes. -/
def CHR_ROM_SIZE : Nat := 8192

/-- The cartridge: parsed header, the PRG/CHR byte arrays (content function
plus explicit length, so out-of-bounds accesses can be modelled), and the
mapper instance the constructor built. -/
structure ROM where
  header : Header
  prgSize : Nat
  prg : Nat → Nat
  chrSize : Nat
  chr : Nat → Nat
  mapper : Mapper000

/-- The ROM constructor: array sizes are the header counts times the bank
sizes, and the mapper is instantiated as `new Mapper000(PRG_ROM_SIZE,
CHR_ROM_SIZE)` — the byte-size constants, exactly as in the source.  The data
functions are masked to bytes as a Uint8Array would hold them. -/
def mkROM (h : Header) (prgData chrData : Nat → Nat) : ROM :=
  { header := h
    prgSize := PRG_ROM_SIZE * h.prgUnits
    prg := fun i => prgData i % 256
    chrSize := CHR_ROM_SIZE * h.chrUnits
    chr := fun i => chrData i % 256
    mapper := { PRGROMsize := PRG_ROM_SIZE, CHRROMsize := CHR_ROM_SIZE } }

namespace ROM

/-- `this.PRGROMData[i]`: the byte when in bounds, `undefined` otherwise. -/
def prgAt (r : ROM) (i : Nat) : JsVal :=
  if i < r.prgSize then .num (r.prg i) else .undefined

/-- `this.CHRROMData[i]`: the byte when in bounds, `undefined` otherwise. -/
def chrAt (r : ROM) (i : Nat) : JsVal :=
  if i < r.chrSize then .num (r.chr i) else .undefined

/-- `ROM.cpuRead`: `if (mappedAddress) return PRGROMData[mappedAddress]; else
return null` — the guard is JavaScript truthiness, so a mapped offset of 0 is
treated like a decline. -/
def cpuRead (r : ROM) (address : Nat) : JsVal :=
  match r.mapper.cpuMapRead address with
  | some mappedAddress =>
      if mappedAddress ≠ 0 then r.prgAt mappedAddress else .null
  | none => .null

/-- `ROM.cpuWrite`: on a truthy mapped offset, store into PRG-ROM (an
out-of-bounds store on a typed array is discarded) and return 1; otherwise
return null. -/
def cpuWrite (r : ROM) (address data : Nat) : ROM × JsVal :=
  match r.mapper.cpuMapWrite address with
  | some mappedAddress =>
      if mappedAddress ≠ 0 then
        if mappedAddress < r.prgSize then
          ({ r with prg := fun j => if j = mappedAddress then data % 256 else r.prg j },
           .num 1)
        else
          (r, .num 1)
      else
        (r, .null)
  | none => (r, .null)

/-- `ROM.ppuRead`: truthy mapped offset reads CHR-ROM, else null. -/
def ppuRead (r : ROM) (address : Nat) : JsVal :=
  match r.mapper.ppuMapRead address with
  | some mappedAddress =>
      if mappedAddress ≠ 0 then r.chrAt mappedAddress else .null
  | none => .null

/-- `ROM.ppuWrite`: truthy mapped offset stores into CHR-ROM and returns 1,
else null. -/
def ppuWrite (r : ROM) (address data : Nat) : ROM × JsVal :=
  match r.mapper.ppuMapWrite address with
  | some mappedAddress =>
      if mappedAddress ≠ 0 then
        if mappedAddress < r.chrSize then
          ({ r with chr := fun j => if j = mappedAddress then data % 256 else r.chr j },
           .num 1)
        else
          (r, .num 1)
      else
        (r, .null)
  | none => (r, .null)

end ROM

/-! ## PPU (the version with loopy registers and the background pipeline)

Field positions used below, from the source enums:
PPUMASK: Grayscale=0, m=1, M=2, b=3, s=4;  PPUSTATUS: O=5, S=6, V=7;
PPUCTRL: nametableX=0, nametableY=1, vRAMAddr=2, sprTableAddr=3,
bckgTableAddr=4, sprSize=5, PPUSelect=6, genNMI=7;
loopy fields: coarseX={0,5}, coarseY={5,5}, nametableX={10,1},
nametableY={11,1}, fineY={12,3}. -/

/-- Pointwise update of a memory modelled as a function. -/
def updFn (f : Nat → Nat) (i v : Nat) : Nat → Nat :=
  fun j => if j = i then v else f j

/-- An RGB color from the palette table. -/
structure Pixel where
  r : Nat
  g : Nat
  b : Nat
  deriving DecidableEq, Repr

/-- One `display.drawPixel(x, y, pixel)` call recorded by the embedding; the
display itself is an external collaborator. -/
structure DrawEvent where
  x : Int
  y : Int
  color : Pixel
  deriving DecidableEq, Repr

/-- The fixed 64-entry palette table of the PPU source. -/
def nesPalette : List Pixel := [
  ⟨84, 84, 84⟩, ⟨0, 30, 116⟩, ⟨8, 16, 144⟩, ⟨48, 0, 136⟩,
  ⟨68, 0, 100⟩, ⟨92, 0, 48⟩, ⟨84, 4, 0⟩, ⟨60, 24, 0⟩,
  ⟨32, 42, 0⟩, ⟨8, 58, 0⟩, ⟨0, 64, 0⟩, ⟨0, 60, 0⟩,
  ⟨0, 50, 60⟩, ⟨0, 0, 0⟩, ⟨0, 0, 0⟩, ⟨0, 0, 0⟩,
  ⟨152, 150, 152⟩, ⟨8, 76, 196⟩, ⟨48, 50, 236⟩, ⟨92, 30, 228⟩,
  ⟨136, 20, 176⟩, ⟨160, 20, 100⟩, ⟨152, 34, 32⟩, ⟨120, 60, 0⟩,
  ⟨84, 90, 0⟩, ⟨40, 114, 0⟩, ⟨8, 124, 0⟩, ⟨0, 118, 40⟩,
  ⟨0, 102, 120⟩, ⟨0, 0, 0⟩, ⟨0, 0, 0⟩, ⟨0, 0, 0⟩,
  ⟨236, 238, 236⟩, ⟨76, 154, 236⟩, ⟨120, 124, 236⟩, ⟨176, 98, 236⟩,
  ⟨228, 84, 236⟩, ⟨236, 88, 180⟩, ⟨236, 106, 100⟩, ⟨212, 136, 32⟩,
  ⟨160, 170, 0⟩, ⟨116, 196, 0⟩, ⟨76, 208, 32⟩, ⟨56, 204, 108⟩,
  ⟨56, 180, 204⟩, ⟨60, 60, 60⟩, ⟨0, 0, 0⟩, ⟨0, 0, 0⟩,
  ⟨236, 238, 236⟩, ⟨168, 204, 236⟩, ⟨188, 188, 236⟩, ⟨212, 178, 236⟩,
  ⟨236, 174, 236⟩, ⟨236, 174, 212⟩, ⟨236, 180, 176⟩, ⟨228, 196, 144⟩,
  ⟨204, 210, 120⟩, ⟨180, 222, 120⟩, ⟨168, 226, 144⟩, ⟨168, 226, 144⟩,
  ⟨152, 226, 180⟩, ⟨160, 162, 160⟩, ⟨0, 0, 0⟩, ⟨0, 0, 0⟩]

/-- The PPU state: the nine memory-mapped register latches, the two loopy
registers, the fine-X scroll and write toggle, the internal memories, the
background shift registers and tile latches, and the timing counters. -/
structure PPUState where
  PPUCTRL : Nat
  PPUMASK : Nat
  PPUSTATUS : Nat
  OAMADDR : Nat
  OAMDATA : Nat
  PPUSCROLL : Nat
  PPUADDR : Nat
  PPUDATA : Nat
  OAMDMA : Nat
  vReg : Nat
  tReg : Nat
  OAM : Nat → Nat
  fineX : Nat
  w : Nat
  nametable0 : Nat → Nat
  nametable1 : Nat → Nat
  patternTable0 : Nat → Nat
  patternTable1 : Nat → Nat
  paletteTable : Nat → Nat
  shiftPatternLow : Nat
  shiftPatternHigh : Nat
  shiftAttribLow : Nat
  shiftAttribHigh : Nat
  tileID : Nat
  tileAttr : Nat
  tileLSB : Nat
  tileMSB : Nat
  scanline : Int
  cycle : Nat
  frameComplete : Bool
  nmi : Bool
  frame : List DrawEvent
  displayUpdates : Nat

namespace PPUState

/-- `PPU.ppuRead`: mask to `0x3FFF`, give the cartridge first refusal
(`temp !== null`, which an `undefined` out-of-bounds CHR read also passes),
then fall back to pattern-table RAM, the mirrored nametables, or palette RAM
with the grayscale mask. -/
def ppuRead (rom : ROM) (p : PPUState) (address0 : Nat) : Nat :=
  let address := address0 &&& 0x3FFF
  match rom.ppuRead address with
  | .num n => n
  | .undefined => 0
  | .null =>
    if isInRange address 0x0000 0x0FFF then
      p.patternTable0 (address &&& 0x0FFF)
    else if isInRange address 0x1000 0x1FFF then
      p.patternTable1 (address &&& 0x0FFF)
    else if isInRange address 0x2000 0x3EFF then
      let address := address &&& 0x0FFF
      let temp := address &&& 0x03FF
      match rom.header.mirroring with
      | .VERTICAL =>
        if isInRange address 0x0000 0x03FF then p.nametable0 temp
        else if isInRange address 0x0400 0x07FF then p.nametable1 temp
        else if isInRange address 0x0800 0x0BFF then p.nametable0 temp
        else if isInRange address 0x0C00 0x0FFF then p.nametable1 temp
        else 0
      | .HORIZONTAL =>
        if isInRange address 0x0000 0x03FF then p.nametable0 temp
        else if isInRange address 0x0400 0x07FF then p.nametable0 temp
        else if isInRange address 0x0800 0x0BFF then p.nametable1 temp
        else if isInRange address 0x0C00 0x0FFF then p.nametable1 temp
        else 0
    else if isInRange address 0x3F00 0x3FFF then
      let address := address &&& 0x001F
      let address := if address == 0x0010 then 0x0000 else address
      let address := if address == 0x0014 then 0x0004 else address
      let address := if address == 0x0018 then 0x0008 else address
      let address := if address == 0x001C then 0x000C else address
      p.paletteTable address &&&
        (if Register.getBit p.PPUMASK 0 ≠ 0 then 0x30 else 0x3F)
    else 0

/-- `PPU.ppuWrite`: mask to `0x3FFF`; the source gives first refusal to
`rom.cpuWrite` (which always declines PPU-space addresses), then writes
pattern-table RAM, the mirrored nametables, or palette RAM. -/
def ppuWrite (rom : ROM) (p : PPUState) (address0 data : Nat) : PPUState × ROM :=
  let address := address0 &&& 0x3FFF
  let (rom, res) := rom.cpuWrite address data
  if res.truthy then (p, rom)
  else if isInRange address 0x0000 0x0FFF then
    ({ p with patternTable0 := updFn p.patternTable0 (address &&& 0x0FFF) (data % 256) }, rom)
  else if isInRange address 0x1000 0x1FFF then
    ({ p with patternTable1 := updFn p.patternTable1 (address &&& 0x0FFF) (data % 256) }, rom)
  else if isInRange address 0x2000 0x3EFF then
    let address := address &&& 0x0FFF
    let temp := address &&& 0x03FF
    match rom.header.mirroring with
    | .VERTICAL =>
      if isInRange address 0x0000 0x03FF then
        ({ p with nametable0 := updFn p.nametable0 temp (data % 256) }, rom)
      else if isInRange address 0x0400 0x07FF then
        ({ p with nametable1 := updFn p.nametable1 temp (data % 256) }, rom)
      else if isInRange address 0x0800 0x0BFF then
        ({ p with nametable0 := updFn p.nametable0 temp (data % 256) }, rom)
      else if isInRange address 0x0C00 0x0FFF then
        ({ p with nametable1 := updFn p.nametable1 temp (data % 256) }, rom)
      else (p, rom)
    | .HORIZONTAL =>
      if isInRange address 0x0000 0x03FF then
        ({ p with nametable0 := updFn p.nametable0 temp (data % 256) }, rom)
      else if isInRange address 0x0400 0x07FF then
        ({ p with nametable0 := updFn p.nametable0 temp (data % 256) }, rom)
      else if isInRange address 0x0800 0x0BFF then
        ({ p with nametable1 := updFn p.nametable1 temp (data % 256) }, rom)
      else if isInRange address 0x0C00 0x0FFF then
        ({ p with nametable1 := updFn p.nametable1 temp (data % 256) }, rom)
      else (p, rom)
  else if isInRange address 0x3F00 0x3FFF then
    let address := address &&& 0x001F
    let address := if address == 0x0010 then 0x0000 else address
    let address := if address == 0x0014 then 0x0004 else address
    let address := if address == 0x0018 then 0x0008 else address
    let address := if address == 0x001C then 0x000C else address
    ({ p with paletteTable := updFn p.paletteTable address (data % 256) }, rom)
  else (p, rom)

/-- `PPU.cpuRead`: the CPU-side register interface, dispatched on the
register index (the bus masks the address with 7).  Registers 0, 1, 3, 4, 5
and 6 return 0 with no effect.  Register 2 returns the status bits mixed with
PPUDATA noise bits, clears the vblank flag and resets the write toggle.
Register 7 returns the stale PPUDATA buffer and refills it from `ppu_read(v)`;
the palette-range test compares the register index (always 7) against
`[0x3F00, 0x3FFF]`, exactly as in the source, before `v` is incremented. -/
def cpuRead (rom : ROM) (p : PPUState) (address : Nat) : Nat × PPUState :=
  if address == 0x0002 then
    let data := (p.PPUSTATUS &&& 0xE0) ||| (p.PPUDATA &&& 0x1F)
    (data, { p with PPUSTATUS := Register.clearBit 8 p.PPUSTATUS 7, w := 0 })
  else if address == 0x0007 then
    let data := p.PPUDATA
    let p := { p with PPUDATA := Register.setReg 8 (ppuRead rom p p.vReg) }
    let data := if isInRange address 0x3F00 0x3FFF then p.PPUDATA else data
    let vramVal := Register.getBit p.PPUCTRL 2
    (data, { p with vReg := Register.add 16 p.vReg (if vramVal == 0 then 1 else 32) })
  else
    (0, p)

/-- `PPU.cpuWrite`: the CPU-side register interface for writes. -/
def cpuWrite (rom : ROM) (p : PPUState) (address val : Nat) : PPUState × ROM :=
  if address == 0x0000 then
    let p := { p with PPUCTRL := Register.setReg 8 val }
    let p := { p with tReg := Register.storeBits 16 p.tReg (Register.getBit p.PPUCTRL 0) 10 1 }
    let p := { p with tReg := Register.storeBits 16 p.tReg (Register.getBit p.PPUCTRL 1) 11 1 }
    (p, rom)
  else if address == 0x0001 then
    ({ p with PPUMASK := Register.setReg 8 val }, rom)
  else if address == 0x0005 then
    if p.w == 0 then
      let p := { p with tReg := Register.storeBits 16 p.tReg (val >>> 3) 0 5 }
      ({ p with fineX := val &&& 0x07, w := 1 }, rom)
    else if p.w == 1 then
      let p := { p with tReg := Register.storeBits 16 p.tReg (val >>> 3) 5 5 }
      let p := { p with tReg := Register.storeBits 16 p.tReg (val &&& 0x07) 12 3 }
      ({ p with w := 0 }, rom)
    else (p, rom)
  else if address == 0x0006 then
    if p.w == 0 then
      let p := { p with tReg := Register.setReg 16 (((val &&& 0x3F) <<< 8) ||| (p.tReg &&& 0x00FF)) }
      let p := { p with tReg := Register.clearBit 16 p.tReg 15 }
      ({ p with w := 1 }, rom)
    else if p.w == 1 then
      let p := { p with tReg := Register.setReg 16 ((p.tReg &&& 0xFF00) ||| val) }
      let p := { p with vReg := Register.setReg 16 p.tReg }
      ({ p with w := 0 }, rom)
    else (p, rom)
  else if address == 0x0007 then
    let (p, rom) := ppuWrite rom p p.vReg val
    let vramVal := Register.getBit p.PPUCTRL 2
    ({ p with vReg := Register.add 16 p.vReg (if vramVal == 0 then 1 else 32) }, rom)
  else (p, rom)

/-- `incrScrollX` closure of `PPU.clock`: coarse-X increment with nametable-X
toggle via `storeBit(pos, ~temp)` (a JavaScript bitwise NOT, hence a negative
value). -/
def incrScrollX (p : PPUState) : PPUState :=
  if Register.getBit p.PPUMASK 3 ≠ 0 ∨ Register.getBit p.PPUMASK 4 ≠ 0 then
    if Register.getBits p.vReg 0 5 == 31 then
      let p := { p with vReg := Register.storeBits 16 p.vReg 0 0 5 }
      let temp := Register.getBit p.vReg 10
      { p with vReg := Register.storeBit 16 p.vReg 10 (-(temp : Int) - 1) }
    else
      let temp := Register.getBits p.vReg 0 5
      { p with vReg := Register.storeBits 16 p.vReg (temp + 1) 0 5 }
  else p

/-- `incrScrollY` closure of `PPU.clock`. -/
def incrScrollY (p : PPUState) : PPUState :=
  if Register.getBit p.PPUMASK 3 ≠ 0 ∨ Register.getBit p.PPUMASK 4 ≠ 0 then
    if Register.getBits p.vReg 12 3 < 7 then
      let temp := Register.getBits p.vReg 12 3
      { p with vReg := Register.storeBits 16 p.vReg (temp + 1) 12 3 }
    else
      let p := { p with vReg := Register.storeBits 16 p.vReg 0 12 3 }
      let y := Register.getBits p.vReg 5 5
      if y == 29 then
        let p := { p with vReg := Register.storeBits 16 p.vReg 0 5 5 }
        let temp := Register.getBit p.vReg 11
        { p with vReg := Register.storeBit 16 p.vReg 11 (-(temp : Int) - 1) }
      else if y == 31 then
        { p with vReg := Register.storeBits 16 p.vReg 0 5 5 }
      else
        { p with vReg := Register.storeBits 16 p.vReg (y + 1) 5 5 }
  else p

/-- `transferAddrX` closure of `PPU.clock`: copy coarse-X and nametable-X
from t to v when rendering is enabled. -/
def transferAddrX (p : PPUState) : PPUState :=
  if Register.getBit p.PPUMASK 3 ≠ 0 ∨ Register.getBit p.PPUMASK 4 ≠ 0 then
    let tempCoarseX := Register.getBits p.tReg 0 5
    let tempNametableX := Register.getBits p.tReg 10 1
    let p := { p with vReg := Register.storeBits 16 p.vReg tempCoarseX 0 5 }
    { p with vReg := Register.storeBits 16 p.vReg tempNametableX 10 1 }
  else p

/-- `trnasferAddrY` closure of `PPU.clock` (the source name has the typo):
copy coarse-Y, fine-Y and nametable-Y from t to v when rendering is enabled. -/
def transferAddrY (p : PPUState) : PPUState :=
  if Register.getBit p.PPUMASK 3 ≠ 0 ∨ Register.getBit p.PPUMASK 4 ≠ 0 then
    let tempCoarseY := Register.getBits p.tReg 5 5
    let tempFineY := Register.getBits p.tReg 12 3
    let tempNametableY := Register.getBits p.tReg 11 1
    let p := { p with vReg := Register.storeBits 16 p.vReg tempCoarseY 5 5 }
    let p := { p with vReg := Register.storeBits 16 p.vReg tempFineY 12 3 }
    { p with vReg := Register.storeBits 16 p.vReg tempNametableY 11 1 }
  else p

/-- `loadBckgShiftReg` closure of `PPU.clock`, translated with both source
quirks intact: the attribute-low register is rebuilt from the pattern-low
register, and both attribute loads test `tileAttr & 0b01`. -/
def loadBckgShiftReg (p : PPUState) : PPUState :=
  let p := { p with shiftPatternLow := Register.setReg 16 ((p.shiftPatternLow &&& 0xFF00) ||| p.tileLSB) }
  let p := { p with shiftPatternHigh := Register.setReg 16 ((p.shiftPatternHigh &&& 0xFF00) ||| p.tileMSB) }
  let p := { p with shiftAttribLow := Register.setReg 16 ((p.shiftPatternLow &&& 0xFF00) ||| (if p.tileAttr &&& 0b01 ≠ 0 then 0xFF else 0x00)) }
  { p with shiftAttribHigh := Register.setReg 16 ((p.shiftAttribHigh &&& 0xFF00) ||| (if p.tileAttr &&& 0b01 ≠ 0 then 0xFF else 0x00)) }

/-- `updateShiftReg` closure of `PPU.clock`: shift all four background shift
registers left when background rendering is enabled. -/
def updateShiftReg (p : PPUState) : PPUState :=
  if Register.getBit p.PPUMASK 3 ≠ 0 then
    let p := { p with shiftPatternLow := Register.shiftLeft 16 p.shiftPatternLow }
    let p := { p with shiftPatternHigh := Register.shiftLeft 16 p.shiftPatternHigh }
    let p := { p with shiftAttribLow := Register.shiftLeft 16 p.shiftAttribLow }
    { p with shiftAttribHigh := Register.shiftLeft 16 p.shiftAttribHigh }
  else p

/-- `getColor`: look the produced palette entry up in the fixed palette
table (the index is masked with 0x3F, hence always in bounds). -/
def getColor (rom : ROM) (p : PPUState) (palette pixel : Nat) : Pixel :=
  (nesPalette.getD (ppuRead rom p (0x3F00 + (palette <<< 2) + pixel) &&& 0x3F) ⟨0, 0, 0⟩)

/-- `PPU.clock`: one dot of the rendering state machine — background fetch
phases, scroll increments and transfers, vblank entry with the NMI edge,
per-dot pixel synthesis, and the dot/scanline counters. -/
def clock (rom : ROM) (p0 : PPUState) : PPUState :=
  let p := p0
  let p :=
    if -1 ≤ p.scanline ∧ p.scanline < 240 then
      let p := if p.scanline == 0 ∧ p.cycle == 0 then { p with cycle := 1 } else p
      let p :=
        if p.scanline == -1 ∧ p.cycle == 1 then
          { p with PPUSTATUS := Register.clearBit 8 p.PPUSTATUS 7 }
        else p
      let p :=
        if (2 ≤ p.cycle ∧ p.cycle < 258) ∨ (321 ≤ p.cycle ∧ p.cycle < 338) then
          let p := updateShiftReg p
          match (p.cycle - 1) % 8 with
          | 0 =>
            let p := loadBckgShiftReg p
            { p with tileID := ppuRead rom p (0x2000 ||| (p.vReg &&& 0x0FFF)) }
          | 2 =>
            let tempNametableY := (Register.getBits p.vReg 11 1) <<< 11
            let tempNametableX := (Register.getBits p.vReg 10 1) <<< 10
            let tempCoarseY := ((Register.getBits p.vReg 5 5) >>> 2) <<< 3
            let tempCoarseX := (Register.getBits p.vReg 0 5) >>> 2
            let a := ppuRead rom p (0x23C0 ||| tempNametableX ||| tempNametableY ||| tempCoarseX ||| tempCoarseY)
            let a := if (Register.getBits p.vReg 5 5) &&& 0x02 ≠ 0 then a >>> 4 else a
            let a := if (Register.getBits p.vReg 0 5) &&& 0x02 ≠ 0 then a >>> 2 else a
            { p with tileAttr := a &&& 0x03 }
          | 4 =>
            let patternTableIndex := Register.getBit p.PPUCTRL 4
            { p with tileLSB := ppuRead rom p ((patternTableIndex <<< 12) + (p.tileID <<< 4) + Register.getBits p.vReg 12 3 + 0) }
          | 6 =>
            let patternTableIndex := Register.getBit p.PPUCTRL 4
            { p with tileMSB := ppuRead rom p ((patternTableIndex <<< 12) + (p.tileID <<< 4) + Register.getBits p.vReg 12 3 + 8) }
          | 7 => incrScrollX p
          | _ => p
        else p
      let p := if p.cycle == 256 then incrScrollY p else p
      let p := if p.cycle == 257 then transferAddrX (loadBckgShiftReg p) else p
      let p :=
        if p.cycle == 338 ∨ p.cycle == 340 then
          { p with tileID := ppuRead rom p (0x2000 ||| (p.vReg &&& 0x0FFF)) }
        else p
      let p :=
        if p.scanline == -1 ∧ 280 ≤ p.cycle ∧ p.cycle < 305 then transferAddrY p else p
      p
    else p
  let p :=
    if 241 ≤ p.scanline ∧ p.scanline < 261 then
      if p.scanline == 241 ∧ p.cycle == 1 then
        let p := { p with PPUSTATUS := Register.setBit 8 p.PPUSTATUS 7 }
        if Register.getBit p.PPUCTRL 7 ≠ 0 then { p with nmi := true } else p
      else p
    else p
  let pix : Nat × Nat :=
    if Register.getBit p.PPUMASK 3 ≠ 0 then
      let bitMux := 0x8000 >>> p.fineX
      let p0bit : Nat := if (p.shiftPatternLow &&& bitMux) > 0 then 1 else 0
      let p1bit : Nat := if (p.shiftPatternHigh &&& bitMux) > 0 then 1 else 0
      let palette0 : Nat := if (p.shiftAttribLow &&& bitMux) > 0 then 1 else 0
      let palette1 : Nat := if (p.shiftAttribHigh &&& bitMux) > 0 then 1 else 0
      ((palette1 <<< 1) ||| palette0, (p1bit <<< 1) ||| p0bit)
    else (0, 0)
  let ev : DrawEvent := ⟨(p.cycle : Int) - 1, p.scanline, getColor rom p pix.1 pix.2⟩
  let p := { p with frame := ev :: p.frame }
  let p : PPUState := { p with cycle := p.cycle + 1 }
  if 341 ≤ p.cycle then
    let p : PPUState := { p with cycle := 0, scanline := p.scanline + 1 }
    if 261 ≤ p.scanline then
      { p with scanline := -1, frameComplete := true, displayUpdates := p.displayUpdates + 1 }
    else p
  else p

end PPUState

/-! ## CPU (cpu.ts): state, opcode table, addressing modes and handlers

Status flag positions: C=0, Z=1, INT_D=2, D=3, B=4, V=6, N=7. -/

/-- Addressing modes of the interpreter. -/
inductive AddressingMode where
  | IMP | ACC | IMM | ZP | ABS | REL | IND
  | ZPI_X | ZPI_Y | ABSI_X | ABSI_Y | INDX_IND_X | IND_INDX_Y
  deriving DecidableEq, Repr, BEq

/-- The operation names of the 256-entry table; in the source the handler
field always references the method of the same name. -/
inductive OpName where
  | ADC | AND | ASL | BCC | BCS | BEQ | BIT | BMI | BNE | BPL | BRK | BVC | BVS
  | CLC | CLD | CLI | CLV | CMP | CPX | CPY | DEC | DEX | DEY | EOR | INC | INX
  | INY | JMP | JSR | LDA | LDX | LDY | LSR | NOP | ORA | PHA | PHP | PLA | PLP
  | ROL | ROR | RTI | RTS | SBC | SEC | SED | SEI | STA | STX | STY | TAX | TAY
  | TSX | TXA | TXS | TYA
  deriving DecidableEq, Repr, BEq

/-- One entry of the operations table. -/
structure Operation where
  opcode : Nat
  name : OpName
  addrMode : Option AddressingMode
  cycles : Nat
  deriving DecidableEq, Repr

/-- Opcode table rows 0x00 to 0x0F. -/
def operationsRow0 : List Operation := [
  ⟨0x00, .BRK, some .IMP, 7⟩,
  ⟨0x01, .ORA, some .INDX_IND_X, 6⟩,
  ⟨0x02, .NOP, none, 0⟩,
  ⟨0x03, .NOP, none, 0⟩,
  ⟨0x04, .NOP, none, 0⟩,
  ⟨0x05, .ORA, some .ZP, 3⟩,
  ⟨0x06, .ASL, some .ZP, 5⟩,
  ⟨0x07, .NOP, none, 0⟩,
  ⟨0x08, .PHP, some .IMP, 3⟩,
  ⟨0x09, .ORA, some .IMM, 2⟩,
  ⟨0x0a, .ASL, some .ACC, 2⟩,
  ⟨0x0b, .NOP, none, 0⟩,
  ⟨0x0c, .NOP, none, 0⟩,
  ⟨0x0d, .ORA, some .ABS, 4⟩,
  ⟨0x0e, .ASL, some .ABS, 6⟩,
  ⟨0x0f, .NOP, none, 0⟩]

/-- Opcode table rows 0x10 to 0x1F. -/
def operationsRow1 : List Operation := [
  ⟨0x10, .BPL, some .REL, 2⟩,
  ⟨0x11, .ORA, some .IND_INDX_Y, 5⟩,
  ⟨0x12, .NOP, none, 0⟩,
  ⟨0x13, .NOP, none, 0⟩,
  ⟨0x14, .NOP, none, 0⟩,
  ⟨0x15, .ORA, some .ZPI_X, 4⟩,
  ⟨0x16, .ASL, some .ZPI_X, 6⟩,
  ⟨0x17, .NOP, none, 0⟩,
  ⟨0x18, .CLC, some .IMP, 2⟩,
  ⟨0x19, .ORA, some .ABSI_Y, 4⟩,
  ⟨0x1a, .NOP, none, 0⟩,
  ⟨0x1b, .NOP, none, 0⟩,
  ⟨0x1c, .NOP, none, 0⟩,
  ⟨0x1d, .ORA, some .ABSI_X, 4⟩,
  ⟨0x1e, .ASL, some .ABSI_X, 6⟩,
  ⟨0x1f, .NOP, none, 0⟩]

/-- Opcode table rows 0x20 to 0x2F. -/
def operationsRow2 : List Operation := [
  ⟨0x20, .JSR, some .ABS, 6⟩,
  ⟨0x21, .AND, some .INDX_IND_X, 6⟩,
  ⟨0x22, .NOP, none, 0⟩,
  ⟨0x23, .NOP, none, 0⟩,
  ⟨0x24, .BIT, some .ZP, 3⟩,
  ⟨0x25, .AND, some .ZP, 3⟩,
  ⟨0x26, .ROL, some .ZP, 5⟩,
  ⟨0x27, .NOP, none, 0⟩,
  ⟨0x28, .PLP, some .IMP, 4⟩,
  ⟨0x29, .AND, some .IMM, 2⟩,
  ⟨0x2a, .ROL, some .ACC, 2⟩,
  ⟨0x2b, .NOP, none, 0⟩,
  ⟨0x2c, .BIT, some .ABS, 4⟩,
  ⟨0x2d, .AND, some .ABS, 4⟩,
  ⟨0x2e, .ROL, some .ABS, 6⟩,
  ⟨0x2f, .NOP, none, 0⟩]

/-- Opcode table rows 0x30 to 0x3F. -/
def operationsRow3 : List Operation := [
  ⟨0x30, .BMI, some .REL, 2⟩,
  ⟨0x31, .AND, some .IND_INDX_Y, 5⟩,
  ⟨0x32, .NOP, none, 0⟩,
  ⟨0x33, .NOP, none, 0⟩,
  ⟨0x34, .NOP, none, 0⟩,
  ⟨0x35, .AND, some .ZPI_X, 4⟩,
  ⟨0x36, .ROL, some .ZPI_X, 6⟩,
  ⟨0x37, .NOP, none, 0⟩,
  ⟨0x38, .SEC, some .IMP, 2⟩,
  ⟨0x39, .AND, some .ABSI_Y, 4⟩,
  ⟨0x3a, .NOP, none, 0⟩,
  ⟨0x3b, .NOP, none, 0⟩,
  ⟨0x3c, .NOP, none, 0⟩,
  ⟨0x3d, .AND, some .ABSI_X, 4⟩,
  ⟨0x3e, .ROL, some .ABSI_X, 6⟩,
  ⟨0x3f, .NOP, none, 0⟩]

/-- Opcode table rows 0x40 to 0x4F. -/
def operationsRow4 : List Operation := [
  ⟨0x40, .RTI, some .IMP, 6⟩,
  ⟨0x41, .EOR, some .INDX_IND_X, 6⟩,
  ⟨0x42, .NOP, none, 0⟩,
  ⟨0x43, .NOP, none, 0⟩,
  ⟨0x44, .NOP, none, 0⟩,
  ⟨0x45, .EOR, some .ZP, 3⟩,
  ⟨0x46, .LSR, some .ZP, 5⟩,
  ⟨0x47, .NOP, none, 0⟩,
  ⟨0x48, .PHA, some .IMP, 3⟩,
  ⟨0x49, .EOR, some .IMM, 2⟩,
  ⟨0x4a, .LSR, some .ACC, 2⟩,
  ⟨0x4b, .NOP, none, 0⟩,
  ⟨0x4c, .JMP, some .ABS, 3⟩,
  ⟨0x4d, .EOR, some .ABS, 4⟩,
  ⟨0x4e, .LSR, some .ABS, 6⟩,
  ⟨0x4f, .NOP, none, 0⟩]

/-- Opcode table rows 0x50 to 0x5F. -/
def operationsRow5 : List Operation := [
  ⟨0x50, .BVC, some .REL, 2⟩,
  ⟨0x51, .EOR, some .IND_INDX_Y, 5⟩,
  ⟨0x52, .NOP, none, 0⟩,
  ⟨0x53, .NOP, none, 0⟩,
  ⟨0x54, .NOP, none, 0⟩,
  ⟨0x55, .EOR, some .ZPI_X, 4⟩,
  ⟨0x56, .LSR, some .ZPI_X, 6⟩,
  ⟨0x57, .NOP, none, 0⟩,
  ⟨0x58, .CLI, some .IMP, 2⟩,
  ⟨0x59, .EOR, some .ABSI_Y, 4⟩,
  ⟨0x5a, .NOP, none, 0⟩,
  ⟨0x5b, .NOP, none, 0⟩,
  ⟨0x5c, .NOP, none, 0⟩,
  ⟨0x5d, .EOR, some .ABSI_X, 4⟩,
  ⟨0x5e, .LSR, some .ABSI_X, 6⟩,
  ⟨0x5f, .NOP, none, 0⟩]

/-- Opcode table rows 0x60 to 0x6F. -/
def operationsRow6 : List Operation := [
  ⟨0x60, .RTS, some .IMP, 6⟩,
  ⟨0x61, .ADC, some .INDX_IND_X, 6⟩,
  ⟨0x62, .NOP, none, 0⟩,
  ⟨0x63, .NOP, none, 0⟩,
  ⟨0x64, .NOP, none, 0⟩,
  ⟨0x65, .ADC, some .ZP, 3⟩,
  ⟨0x66, .ROR, some .ZP, 5⟩,
  ⟨0x67, .NOP, none, 0⟩,
  ⟨0x68, .PLA, some .IMP, 4⟩,
  ⟨0x69, .ADC, some .IMM, 2⟩,
  ⟨0x6a, .ROR, some .ACC, 2⟩,
  ⟨0x6b, .NOP, none, 0⟩,
  ⟨0x6c, .JMP, some .IND, 6⟩,
  ⟨0x6d, .ADC, some .ABS, 4⟩,
  ⟨0x6e, .ROR, some .ABSI_X, 6⟩,
  ⟨0x6f, .NOP, none, 0⟩]

/-- Opcode table rows 0x70 to 0x7F. -/
def operationsRow7 : List Operation := [
  ⟨0x70, .BVS, some .REL, 2⟩,
  ⟨0x71, .ADC, some .IND_INDX_Y, 5⟩,
  ⟨0x72, .NOP, none, 0⟩,
  ⟨0x73, .NOP, none, 0⟩,
  ⟨0x74, .NOP, none, 0⟩,
  ⟨0x75, .ADC, some .ZPI_X, 4⟩,
  ⟨0x76, .ROR, some .ZPI_X, 6⟩,
  ⟨0x77, .NOP, none, 0⟩,
  ⟨0x78, .SEI, some .IMP, 2⟩,
  ⟨0x79, .ADC, some .ABSI_Y, 4⟩,
  ⟨0x7a, .NOP, none, 0⟩,
  ⟨0x7b, .NOP, none, 0⟩,
  ⟨0x7c, .NOP, none, 0⟩,
  ⟨0x7d, .ADC, some .ABSI_X, 4⟩,
  ⟨0x7e, .ROR, some .ABS, 6⟩,
  ⟨0x7f, .NOP, none, 0⟩]

/-- Opcode table rows 0x80 to 0x8F. -/
def operationsRow8 : List Operation := [
  ⟨0x80, .NOP, none, 0⟩,
  ⟨0x81, .STA, some .INDX_IND_X, 6⟩,
  ⟨0x82, .NOP, none, 0⟩,
  ⟨0x83, .NOP, none, 0⟩,
  ⟨0x84, .STY, some .ZP, 3⟩,
  ⟨0x85, .STA, some .ZP, 3⟩,
  ⟨0x86, .STX, some .ZP, 5⟩,
  ⟨0x87, .NOP, none, 0⟩,
  ⟨0x88, .DEY, some .IMP, 2⟩,
  ⟨0x89, .NOP, none, 0⟩,
  ⟨0x8a, .TXA, some .IMP, 2⟩,
  ⟨0x8b, .NOP, none, 0⟩,
  ⟨0x8c, .STY, some .ABS, 4⟩,
  ⟨0x8d, .STA, some .ABS, 4⟩,
  ⟨0x8e, .STX, some .ABS, 4⟩,
  ⟨0x8f, .NOP, none, 0⟩]

/-- Opcode table rows 0x90 to 0x9F. -/
def operationsRow9 : List Operation := [
  ⟨0x90, .BCC, some .REL, 2⟩,
  ⟨0x91, .STA, some .IND_INDX_Y, 6⟩,
  ⟨0x92, .NOP, none, 0⟩,
  ⟨0x93, .NOP, none, 0⟩,
  ⟨0x94, .STY, some .ZPI_X, 4⟩,
  ⟨0x95, .STA, some .ZPI_X, 4⟩,
  ⟨0x96, .STX, some .ZPI_Y, 4⟩,
  ⟨0x97, .NOP, none, 0⟩,
  ⟨0x98, .TYA, some .IMP, 2⟩,
  ⟨0x99, .STA, some .ABSI_Y, 5⟩,
  ⟨0x9a, .TXS, some .IMP, 2⟩,
  ⟨0x9b, .NOP, none, 0⟩,
  ⟨0x9c, .NOP, none, 0⟩,
  ⟨0x9d, .STA, some .ABSI_Y, 5⟩,
  ⟨0x9e, .NOP, none, 0⟩,
  ⟨0x9f, .NOP, none, 0⟩]

/-- Opcode table rows 0xA0 to 0xAF. -/
def operationsRowA : List Operation := [
  ⟨0xa0, .LDY, some .IMM, 2⟩,
  ⟨0xa1, .LDA, some .INDX_IND_X, 6⟩,
  ⟨0xa2, .LDX, some .IMM, 2⟩,
  ⟨0xa3, .NOP, none, 0⟩,
  ⟨0xa4, .LDY, some .ZP, 3⟩,
  ⟨0xa5, .LDA, some .ZP, 3⟩,
  ⟨0xa6, .LDX, some .ZP, 3⟩,
  ⟨0xa7, .NOP, none, 0⟩,
  ⟨0xa8, .TAY, some .IMP, 2⟩,
  ⟨0xa9, .LDA, some .IMM, 2⟩,
  ⟨0xaa, .TAX, some .IMP, 2⟩,
  ⟨0xab, .NOP, none, 0⟩,
  ⟨0xac, .LDY, some .ABS, 4⟩,
  ⟨0xad, .LDA, some .ABS, 4⟩,
  ⟨0xae, .LDX, some .ABS, 4⟩,
  ⟨0xaf, .NOP, none, 0⟩]

/-- Opcode table rows 0xB0 to 0xBF. -/
def operationsRowB : List Operation := [
  ⟨0xb0, .BCS, some .REL, 2⟩,
  ⟨0xb1, .LDA, some .IND_INDX_Y, 5⟩,
  ⟨0xb2, .NOP, none, 0⟩,
  ⟨0xb3, .NOP, none, 0⟩,
  ⟨0xb4, .LDY, some .ZPI_X, 5⟩,
  ⟨0xb5, .LDA, some .ZPI_X, 4⟩,
  ⟨0xb6, .LDX, some .ZPI_Y, 4⟩,
  ⟨0xb7, .NOP, none, 0⟩,
  ⟨0xb8, .CLV, some .IMP, 2⟩,
  ⟨0xb9, .LDA, some .ABSI_Y, 4⟩,
  ⟨0xba, .TSX, some .IMP, 2⟩,
  ⟨0xbb, .NOP, none, 0⟩,
  ⟨0xbc, .LDY, some .ABSI_X, 4⟩,
  ⟨0xbd, .LDA, some .ABSI_X, 4⟩,
  ⟨0xbe, .LDX, some .ABSI_Y, 4⟩,
  ⟨0xbf, .NOP, none, 0⟩]

/-- Opcode table rows 0xC0 to 0xCF. -/
def operationsRowC : List Operation := [
  ⟨0xc0, .CPY, some .IMM, 2⟩,
  ⟨0xc1, .CMP, some .INDX_IND_X, 6⟩,
  ⟨0xc2, .NOP, none, 0⟩,
  ⟨0xc3, .NOP, none, 0⟩,
  ⟨0xc4, .CPY, some .ZP, 3⟩,
  ⟨0xc5, .CMP, some .ZP, 3⟩,
  ⟨0xc6, .DEC, some .ZP, 5⟩,
  ⟨0xc7, .NOP, none, 0⟩,
  ⟨0xc8, .INY, some .IMP, 2⟩,
  ⟨0xc9, .CMP, some .IMM, 2⟩,
  ⟨0xca, .DEX, some .IMP, 2⟩,
  ⟨0xcb, .NOP, none, 0⟩,
  ⟨0xcc, .CPY, some .ABS, 4⟩,
  ⟨0xcd, .CMP, some .ABS, 4⟩,
  ⟨0xce, .DEC, some .ABS, 6⟩,
  ⟨0xcf, .NOP, none, 0⟩]

/-- Opcode table rows 0xD0 to 0xDF. -/
def operationsRowD : List Operation := [
  ⟨0xd0, .BNE, some .REL, 2⟩,
  ⟨0xd1, .CMP, some .IND_INDX_Y, 5⟩,
  ⟨0xd2, .NOP, none, 0⟩,
  ⟨0xd3, .NOP, none, 0⟩,
  ⟨0xd4, .NOP, none, 0⟩,
  ⟨0xd5, .CMP, some .ZPI_X, 5⟩,
  ⟨0xd6, .DEC, some .ZPI_X, 6⟩,
  ⟨0xd7, .NOP, none, 0⟩,
  ⟨0xd8, .CLD, some .IMP, 2⟩,
  ⟨0xd9, .CMP, some .ABSI_Y, 4⟩,
  ⟨0xda, .NOP, none, 0⟩,
  ⟨0xdb, .NOP, none, 0⟩,
  ⟨0xdc, .NOP, none, 0⟩,
  ⟨0xdd, .CMP, some .ABSI_X, 4⟩,
  ⟨0xde, .DEC, some .ABSI_X, 7⟩,
  ⟨0xdf, .NOP, none, 0⟩]

/-- Opcode table rows 0xE0 to 0xEF. -/
def operationsRowE : List Operation := [
  ⟨0xe0, .CPX, some .IMM, 2⟩,
  ⟨0xe1, .SBC, some .INDX_IND_X, 6⟩,
  ⟨0xe2, .NOP, none, 0⟩,
  ⟨0xe3, .NOP, none, 0⟩,
  ⟨0xe4, .CPX, some .ZP, 3⟩,
  ⟨0xe5, .SBC, some .ZP, 3⟩,
  ⟨0xe6, .INC, some .ZP, 2⟩,
  ⟨0xe7, .NOP, none, 0⟩,
  ⟨0xe8, .INX, some .IMP, 2⟩,
  ⟨0xe9, .SBC, some .IMM, 2⟩,
  ⟨0xea, .NOP, some .IMP, 2⟩,
  ⟨0xeb, .NOP, none, 0⟩,
  ⟨0xec, .CPX, some .ABS, 4⟩,
  ⟨0xed, .SBC, some .ABS, 4⟩,
  ⟨0xee, .INC, some .ABS, 6⟩,
  ⟨0xef, .NOP, none, 0⟩]

/-- Opcode table rows 0xF0 to 0xFF. -/
def operationsRowF : List Operation := [
  ⟨0xf0, .BEQ, some .REL, 2⟩,
  ⟨0xf1, .SBC, some .IND_INDX_Y, 5⟩,
  ⟨0xf2, .NOP, none, 0⟩,
  ⟨0xf3, .NOP, none, 0⟩,
  ⟨0xf4, .NOP, none, 0⟩,
  ⟨0xf5, .SBC, some .ZPI_X, 5⟩,
  ⟨0xf6, .INC, some .ZPI_X, 4⟩,
  ⟨0xf7, .NOP, none, 0⟩,
  ⟨0xf8, .SED, some .IMP, 6⟩,
  ⟨0xf9, .SBC, some .ABSI_Y, 4⟩,
  ⟨0xfa, .SBC, some .ABSI_X, 4⟩,
  ⟨0xfb, .NOP, none, 0⟩,
  ⟨0xfc, .NOP, none, 0⟩,
  ⟨0xfd, .INC, some .ABSI_X, 7⟩,
  ⟨0xfe, .NOP, none, 0⟩,
  ⟨0xff, .NOP, none, 0⟩]

/-- The operations array, transcribed entry by entry (in 16 rows) from the
constructor of cpu.ts; the entry at index k describes opcode k.  Slots
written `addrMode: null` in the source carry `none` and cycle count 0. -/
def operations : List Operation :=
  operationsRow0 ++ operationsRow1 ++ operationsRow2 ++ operationsRow3 ++
  operationsRow4 ++ operationsRow5 ++ operationsRow6 ++ operationsRow7 ++
  operationsRow8 ++ operationsRow9 ++ operationsRowA ++ operationsRowB ++
  operationsRowC ++ operationsRowD ++ operationsRowE ++ operationsRowF

/-- `this.operations[opcode]`: table lookup.  An index above 255 cannot arise
from a byte fetch, so the fallback entry is unreachable in the modelled state
space (JavaScript array indexing would give `undefined` there). -/
def opTable (opcode : Nat) : Operation := operations.getD opcode ⟨0, .NOP, none, 0⟩

/-- The CPU registers and bookkeeping fields.  `cycles` is a plain
JavaScript number and can go negative, hence Int. -/
structure CPUState where
  pc : Nat
  sp : Nat
  acc : Nat
  irx : Nat
  iry : Nat
  ps : Nat
  fetched : Nat
  absAddress : Nat
  relAddress : Nat
  opcode : Nat
  cycles : Int
  internalClock : Nat
  deriving DecidableEq, Repr

/-- Two byte latches indexed by `address & 1`, as used for the controller
ports. -/
structure Pair2 where
  fst : Nat
  snd : Nat
  deriving DecidableEq, Repr

/-- Read latch `i` (0 or 1). -/
def Pair2.get (p : Pair2) (i : Nat) : Nat := if i == 0 then p.fst else p.snd

/-- Write latch `i` (0 or 1). -/
def Pair2.set (p : Pair2) (i v : Nat) : Pair2 :=
  if i == 0 then { p with fst := v } else { p with snd := v }

/-- The whole machine as the Bus owns it: CPU, PPU, cartridge, the 2 KiB
internal RAM, the controller latches and the system tick counter. -/
structure NES where
  cpu : CPUState
  ppu : PPUState
  rom : ROM
  cpuRAM : Nat → Nat
  controller : Pair2
  controllerState : Pair2
  systemClock : Nat

/-! ### Bus (the version with controller latches) -/

/-- `Bus.read`: the cartridge is asked first (`temp !== null`, which an
out-of-bounds `undefined` also passes); then internal RAM mirrors, the PPU
register file, the APU stub, the controller shift latches (bit 7 out, then
shift left), and 0 for everything unmapped. -/
def busRead (s : NES) (address : Nat) : JsVal × NES :=
  match s.rom.cpuRead address with
  | .null =>
    if isInRange address 0x0000 0x1FFF then
      (.num (s.cpuRAM (address &&& 0x07FF)), s)
    else if isInRange address 0x2000 0x3FFF then
      let (d, ppu) := PPUState.cpuRead s.rom s.ppu (address &&& 0x0007)
      (.num d, { s with ppu := ppu })
    else if address == 0x4015 then
      (.num 0, s)
    else if isInRange address 0x4016 0x4017 then
      let i := address &&& 0x0001
      let st := s.controllerState.get i
      let data : Nat := if (st &&& 0x80) > 0 then 1 else 0
      (.num data, { s with controllerState := s.controllerState.set i ((st <<< 1) % 256) })
    else if isInRange address 0x4018 0x401F then
      (.num 0, s)
    else
      (.num 0, s)
  | v => (v, s)

/-- `Bus.read` coerced to a number, as the CPU consumes it. -/
def busReadN (s : NES) (address : Nat) : Nat × NES :=
  let (v, s) := busRead s address
  (v.toNat, s)

/-- `Bus.write`: the cartridge is asked first (truthiness of
`rom.cpuWrite`); then internal RAM mirrors, the PPU register file, the
APU/IO stub covering 0x4000-0x4013, 0x4015 and 0x4017, the controller
snapshot latch for what remains of 0x4016-0x4017, and a no-op elsewhere. -/
def busWrite (s : NES) (address data : Nat) : NES :=
  let res2 := s.rom.cpuWrite address data
  let s := { s with rom := res2.1 }
  if res2.2.truthy then s
  else if isInRange address 0x0000 0x1FFF then
    { s with cpuRAM := updFn s.cpuRAM (address &&& 0x07FF) (data % 256) }
  else if isInRange address 0x2000 0x3FFF then
    let pr := PPUState.cpuWrite s.rom s.ppu (address &&& 0x0007) data
    { s with ppu := pr.1, rom := pr.2 }
  else if isInRange address 0x4000 0x4013 ∨ address == 0x4015 ∨ address == 0x4017 then
    s
  else if isInRange address 0x4016 0x4017 then
    let i := address &&& 0x0001
    { s with controllerState := s.controllerState.set i (s.controller.get i % 256) }
  else
    s

namespace CPU

/-- Update only the status register. -/
def withPS (s : NES) (ps : Nat) : NES := { s with cpu := { s.cpu with ps := ps } }

/-- `PS.storeBit(pos, val)` on the machine state. -/
def setFlag (s : NES) (pos : Nat) (val : Int) : NES :=
  withPS s (Register.storeBit 8 s.cpu.ps pos val)

/-- `PS.setBit(pos)` on the machine state. -/
def psSetBit (s : NES) (pos : Nat) : NES := withPS s (Register.setBit 8 s.cpu.ps pos)

/-- `PS.clearBit(pos)` on the machine state. -/
def psClearBit (s : NES) (pos : Nat) : NES := withPS s (Register.clearBit 8 s.cpu.ps pos)

/-- `writeToMemory` (a plain bus write). -/
def writeToMemory (s : NES) (address val : Nat) : NES := busWrite s address val

/-- `writeToStack`: write at `0x0100 + SP`, then decrement SP. -/
def writeToStack (s : NES) (val : Nat) : NES :=
  let s := busWrite s (0x0100 + s.cpu.sp) val
  { s with cpu := { s.cpu with sp := Register.decr 8 s.cpu.sp } }

/-- `readFromStack`: increment SP, then read at `0x0100 + SP`. -/
def readFromStack (s : NES) : Nat × NES :=
  let s := { s with cpu := { s.cpu with sp := Register.incr 8 s.cpu.sp } }
  busReadN s (0x0100 + s.cpu.sp)

/-- `loadFromMemory`: 0 for IMP addressing (only IMP, not ACC), otherwise a
bus read at the resolved absolute address. -/
def loadFromMemory (s : NES) : Nat × NES :=
  if (opTable s.cpu.opcode).addrMode == some AddressingMode.IMP then (0, s)
  else busReadN s s.cpu.absAddress

/-- `execAddrModeFunc`: resolve the addressing mode, mutating PC and the
operand bookkeeping, and return the extra page-cross cycle where
applicable.  A `null` mode falls through the switch and contributes 0. -/
def execAddrModeFunc (s : NES) (mode : Option AddressingMode) : NES × Nat :=
  match mode with
  | none => (s, 0)
  | some .IMP => ({ s with cpu := { s.cpu with fetched := s.cpu.acc } }, 0)
  | some .ACC => ({ s with cpu := { s.cpu with fetched := s.cpu.acc } }, 0)
  | some .IMM =>
    let s := { s with cpu := { s.cpu with absAddress := s.cpu.pc } }
    ({ s with cpu := { s.cpu with pc := Register.incr 16 s.cpu.pc } }, 0)
  | some .ZP =>
    let rd := busReadN s s.cpu.pc
    let s := rd.2
    let s := { s with cpu := { s.cpu with absAddress := rd.1, pc := Register.incr 16 s.cpu.pc } }
    ({ s with cpu := { s.cpu with absAddress := s.cpu.absAddress &&& 0x00FF } }, 0)
  | some .ABS =>
    let rd1 := busReadN s s.cpu.pc
    let low := rd1.1
    let s := { rd1.2 with cpu := { rd1.2.cpu with pc := Register.incr 16 rd1.2.cpu.pc } }
    let rd2 := busReadN s s.cpu.pc
    let high := rd2.1
    let s := { rd2.2 with cpu := { rd2.2.cpu with pc := Register.incr 16 rd2.2.cpu.pc } }
    ({ s with cpu := { s.cpu with absAddress := (high <<< 8) ||| low } }, 0)
  | some .REL =>
    let rd := busReadN s s.cpu.pc
    let s := rd.2
    let s := { s with cpu := { s.cpu with relAddress := rd.1, pc := Register.incr 16 s.cpu.pc } }
    let s :=
      if s.cpu.relAddress &&& 0x80 ≠ 0 then
        { s with cpu := { s.cpu with relAddress := s.cpu.relAddress ||| 0xFF00 } }
      else s
    (s, 0)
  | some .IND =>
    let rd1 := busReadN s s.cpu.pc
    let low := rd1.1
    let s := { rd1.2 with cpu := { rd1.2.cpu with pc := Register.incr 16 rd1.2.cpu.pc } }
    let rd2 := busReadN s s.cpu.pc
    let high := rd2.1
    let s := { rd2.2 with cpu := { rd2.2.cpu with pc := Register.incr 16 rd2.2.cpu.pc } }
    let pointerAddress := (high <<< 8) ||| low
    if low == 0x00FF then
      let rdh := busReadN s (pointerAddress &&& 0xFF00)
      let rdl := busReadN rdh.2 (pointerAddress + 0)
      ({ rdl.2 with cpu := { rdl.2.cpu with absAddress := (rdh.1 <<< 8) ||| rdl.1 } }, 0)
    else
      let rdh := busReadN s (pointerAddress + 1)
      let rdl := busReadN rdh.2 (pointerAddress + 0)
      ({ rdl.2 with cpu := { rdl.2.cpu with absAddress := (rdh.1 <<< 8) ||| rdl.1 } }, 0)
  | some .ZPI_X =>
    let rd := busReadN s s.cpu.pc
    let s := rd.2
    let s := { s with cpu := { s.cpu with absAddress := rd.1 + s.cpu.irx, pc := Register.incr 16 s.cpu.pc } }
    ({ s with cpu := { s.cpu with absAddress := s.cpu.absAddress &&& 0x00FF } }, 0)
  | some .ZPI_Y =>
    let rd := busReadN s s.cpu.pc
    let s := rd.2
    let s := { s with cpu := { s.cpu with absAddress := rd.1 + s.cpu.iry, pc := Register.incr 16 s.cpu.pc } }
    ({ s with cpu := { s.cpu with absAddress := s.cpu.absAddress &&& 0x00FF } }, 0)
  | some .ABSI_X =>
    let rd1 := busReadN s s.cpu.pc
    let low := rd1.1
    let s := { rd1.2 with cpu := { rd1.2.cpu with pc := Register.incr 16 rd1.2.cpu.pc } }
    let rd2 := busReadN s s.cpu.pc
    let high := rd2.1
    let s := { rd2.2 with cpu := { rd2.2.cpu with pc := Register.incr 16 rd2.2.cpu.pc } }
    let s := { s with cpu := { s.cpu with absAddress := ((high <<< 8) ||| low) + s.cpu.irx } }
    (s, if (s.cpu.absAddress &&& 0xFF00) ≠ (high <<< 8) then 1 else 0)
  | some .ABSI_Y =>
    let rd1 := busReadN s s.cpu.pc
    let low := rd1.1
    let s := { rd1.2 with cpu := { rd1.2.cpu with pc := Register.incr 16 rd1.2.cpu.pc } }
    let rd2 := busReadN s s.cpu.pc
    let high := rd2.1
    let s := { rd2.2 with cpu := { rd2.2.cpu with pc := Register.incr 16 rd2.2.cpu.pc } }
    let s := { s with cpu := { s.cpu with absAddress := ((high <<< 8) ||| low) + s.cpu.iry } }
    (s, if (s.cpu.absAddress &&& 0xFF00) ≠ (high <<< 8) then 1 else 0)
  | some .INDX_IND_X =>
    let rd := busReadN s s.cpu.pc
    let LL := rd.1
    let s := { rd.2 with cpu := { rd.2.cpu with pc := Register.incr 16 rd.2.cpu.pc } }
    let rdl := busReadN s ((LL + s.cpu.irx) &&& 0x00FF)
    let rdh := busReadN rdl.2 ((LL + rdl.2.cpu.irx + 1) &&& 0x00FF)
    ({ rdh.2 with cpu := { rdh.2.cpu with absAddress := (rdh.1 <<< 8) ||| rdl.1 } }, 0)
  | some .IND_INDX_Y =>
    let rd := busReadN s s.cpu.pc
    let LL := rd.1
    let s := { rd.2 with cpu := { rd.2.cpu with pc := Register.incr 16 rd.2.cpu.pc } }
    let rdl := busReadN s (LL &&& 0x00FF)
    let rdh := busReadN rdl.2 ((LL + 1) &&& 0x00FF)
    let s := { rdh.2 with cpu := { rdh.2.cpu with absAddress := ((rdh.1 <<< 8) ||| rdl.1) + rdh.2.cpu.iry } }
    (s, if (s.cpu.absAddress &&& 0xFF00) ≠ (rdh.1 <<< 8) then 1 else 0)

end CPU

namespace CPU

/-- `ADC`: add with carry.  The V computation stores the raw `& 0x80` value
into `storeBit`, exactly as the source does. -/
def ADC (s : NES) : NES × Nat :=
  let ld := loadFromMemory s
  let s := { ld.2 with cpu := { ld.2.cpu with fetched := ld.1 } }
  let temp := s.cpu.acc + s.cpu.fetched + Register.getBit s.cpu.ps 0
  let s1 := setFlag s 0 (if temp > 255 then 1 else 0)
  let s2 := setFlag s1 7 (if temp &&& 0x80 ≠ 0 then 1 else 0)
  let s3 := setFlag s2 1 (if temp &&& 0x00FF == 0 then 1 else 0)
  let s4 := setFlag s3 6 ((jsNot (s.cpu.acc ^^^ s.cpu.fetched) &&& (s.cpu.acc ^^^ temp) &&& 0x0080 : Nat) : Int)
  ({ s4 with cpu := { s4.cpu with acc := Register.setReg 8 (temp &&& 0x00FF) } }, 1)

/-- `AND` with accumulator. -/
def AND (s : NES) : NES × Nat :=
  let ld := loadFromMemory s
  let s := { ld.2 with cpu := { ld.2.cpu with fetched := ld.1 } }
  let temp := s.cpu.acc &&& s.cpu.fetched
  let s := { s with cpu := { s.cpu with acc := Register.setReg 8 temp } }
  let s := setFlag s 1 (if s.cpu.acc == 0x00 then 1 else 0)
  let s := setFlag s 7 (if s.cpu.acc &&& 0x80 ≠ 0 then 1 else 0)
  (s, 1)

/-- `ASL`: arithmetic shift left.  The accumulator branch tests
`addrMode === IMM` (not ACC), as in the source. -/
def ASL (s : NES) : NES × Nat :=
  let ld := loadFromMemory s
  let s := { ld.2 with cpu := { ld.2.cpu with fetched := ld.1 } }
  let temp := s.cpu.fetched <<< 1
  let s := setFlag s 0 (if (temp &&& 0xFF00) > 0 then 1 else 0)
  let s := setFlag s 7 (if temp &&& 0x80 ≠ 0 then 1 else 0)
  let s := setFlag s 1 (if temp &&& 0x00FF == 0 then 1 else 0)
  let s :=
    if (opTable s.cpu.opcode).addrMode == some AddressingMode.IMM then
      { s with cpu := { s.cpu with acc := Register.setReg 8 temp } }
    else
      busWrite s s.cpu.absAddress (temp &&& 0x00FF)
  (s, 0)

/-- `BCC`: branch on carry clear (this branch computes the target without a
16-bit wrap, as in the source). -/
def BCC (s : NES) : NES × Nat :=
  if Register.getBit s.cpu.ps 0 == 0 then
    let s := { s with cpu := { s.cpu with cycles := s.cpu.cycles + 1 } }
    let s := { s with cpu := { s.cpu with absAddress := s.cpu.pc + s.cpu.relAddress } }
    let s :=
      if (s.cpu.absAddress &&& 0xFF00) ≠ (s.cpu.pc &&& 0xFF00) then
        { s with cpu := { s.cpu with cycles := s.cpu.cycles + 1 } }
      else s
    ({ s with cpu := { s.cpu with pc := Register.setReg 16 s.cpu.absAddress } }, 0)
  else (s, 0)

/-- `BCS`: branch on carry set (no 16-bit wrap on the target sum). -/
def BCS (s : NES) : NES × Nat :=
  if Register.getBit s.cpu.ps 0 ≠ 0 then
    let s := { s with cpu := { s.cpu with cycles := s.cpu.cycles + 1 } }
    let s := { s with cpu := { s.cpu with absAddress := s.cpu.pc + s.cpu.relAddress } }
    let s :=
      if (s.cpu.absAddress &&& 0xFF00) ≠ (s.cpu.pc &&& 0xFF00) then
        { s with cpu := { s.cpu with cycles := s.cpu.cycles + 1 } }
      else s
    ({ s with cpu := { s.cpu with pc := Register.setReg 16 s.cpu.absAddress } }, 0)
  else (s, 0)

/-- `BEQ`: branch on zero set (no 16-bit wrap on the target sum). -/
def BEQ (s : NES) : NES × Nat :=
  if Register.getBit s.cpu.ps 1 ≠ 0 then
    let s := { s with cpu := { s.cpu with cycles := s.cpu.cycles + 1 } }
    let s := { s with cpu := { s.cpu with absAddress := s.cpu.pc + s.cpu.relAddress } }
    let s :=
      if (s.cpu.absAddress &&& 0xFF00) ≠ (s.cpu.pc &&& 0xFF00) then
        { s with cpu := { s.cpu with cycles := s.cpu.cycles + 1 } }
      else s
    ({ s with cpu := { s.cpu with pc := Register.setReg 16 s.cpu.absAddress } }, 0)
  else (s, 0)

/-- `BIT`: bit test.  N and V receive the raw masked values through
`storeBit`, as in the source. -/
def BIT (s : NES) : NES × Nat :=
  let ld := loadFromMemory s
  let s := { ld.2 with cpu := { ld.2.cpu with fetched := ld.1 } }
  let newN := s.cpu.fetched &&& (1 <<< 7)
  let newV := s.cpu.fetched &&& (1 <<< 6)
  let s := setFlag s 7 (newN : Int)
  let s := setFlag s 6 (newV : Int)
  let temp := s.cpu.acc &&& s.cpu.fetched
  let newZ := (temp &&& 0x00FF) == 0x00
  let s := setFlag s 1 (if newZ then 1 else 0)
  (s, 0)

/-- `BMI`: branch on negative set (target wrapped through a Uint16Array). -/
def BMI (s : NES) : NES × Nat :=
  if Register.getBit s.cpu.ps 7 ≠ 0 then
    let s := { s with cpu := { s.cpu with cycles := s.cpu.cycles + 1 } }
    let temp := (s.cpu.pc + s.cpu.relAddress) % 65536
    let s := { s with cpu := { s.cpu with absAddress := temp } }
    let s :=
      if (s.cpu.absAddress &&& 0xFF00) ≠ (s.cpu.pc &&& 0xFF00) then
        { s with cpu := { s.cpu with cycles := s.cpu.cycles + 1 } }
      else s
    ({ s with cpu := { s.cpu with pc := Register.setReg 16 s.cpu.absAddress } }, 0)
  else (s, 0)

/-- `BNE`: branch on zero clear (target wrapped through a Uint16Array). -/
def BNE (s : NES) : NES × Nat :=
  if Register.getBit s.cpu.ps 1 == 0 then
    let s := { s with cpu := { s.cpu with cycles := s.cpu.cycles + 1 } }
    let temp := (s.cpu.pc + s.cpu.relAddress) % 65536
    let s := { s with cpu := { s.cpu with absAddress := temp } }
    let s :=
      if (s.cpu.absAddress &&& 0xFF00) ≠ (s.cpu.pc &&& 0xFF00) then
        { s with cpu := { s.cpu with cycles := s.cpu.cycles + 1 } }
      else s
    ({ s with cpu := { s.cpu with pc := Register.setReg 16 s.cpu.absAddress } }, 0)
  else (s, 0)

/-- `BPL`: branch on negative clear (target wrapped through a Uint16Array). -/
def BPL (s : NES) : NES × Nat :=
  if Register.getBit s.cpu.ps 7 == 0 then
    let s := { s with cpu := { s.cpu with cycles := s.cpu.cycles + 1 } }
    let temp := (s.cpu.pc + s.cpu.relAddress) % 65536
    let s := { s with cpu := { s.cpu with absAddress := temp } }
    let s :=
      if (s.cpu.absAddress &&& 0xFF00) ≠ (s.cpu.pc &&& 0xFF00) then
        { s with cpu := { s.cpu with cycles := s.cpu.cycles + 1 } }
      else s
    ({ s with cpu := { s.cpu with pc := Register.setReg 16 s.cpu.absAddress } }, 0)
  else (s, 0)

/-- `BRK`: software interrupt. -/
def BRK (s : NES) : NES × Nat :=
  let s := { s with cpu := { s.cpu with pc := Register.incr 16 s.cpu.pc } }
  let s := psSetBit s 2
  let s := writeToStack s ((s.cpu.pc >>> 8) &&& 0x00FF)
  let s := writeToStack s (s.cpu.pc &&& 0x00FF)
  let s := psSetBit s 4
  let s := writeToStack s s.cpu.ps
  let s := psClearBit s 4
  let rdl := busReadN s 0xFFFE
  let rdh := busReadN rdl.2 0xFFFF
  ({ rdh.2 with cpu := { rdh.2.cpu with pc := Register.setReg 16 (rdl.1 ||| (rdh.1 <<< 8)) } }, 0)

/-- `BVC`: branch on overflow clear (target wrapped through a Uint16Array). -/
def BVC (s : NES) : NES × Nat :=
  if Register.getBit s.cpu.ps 6 == 0 then
    let s := { s with cpu := { s.cpu with cycles := s.cpu.cycles + 1 } }
    let temp := (s.cpu.pc + s.cpu.relAddress) % 65536
    let s := { s with cpu := { s.cpu with absAddress := temp } }
    let s :=
      if (s.cpu.absAddress &&& 0xFF00) ≠ (s.cpu.pc &&& 0xFF00) then
        { s with cpu := { s.cpu with cycles := s.cpu.cycles + 1 } }
      else s
    ({ s with cpu := { s.cpu with pc := Register.setReg 16 s.cpu.absAddress } }, 0)
  else (s, 0)

/-- `BVS`: branch on overflow set (target wrapped through a Uint16Array). -/
def BVS (s : NES) : NES × Nat :=
  if Register.getBit s.cpu.ps 6 ≠ 0 then
    let s := { s with cpu := { s.cpu with cycles := s.cpu.cycles + 1 } }
    let temp := (s.cpu.pc + s.cpu.relAddress) % 65536
    let s := { s with cpu := { s.cpu with absAddress := temp } }
    let s :=
      if (s.cpu.absAddress &&& 0xFF00) ≠ (s.cpu.pc &&& 0xFF00) then
        { s with cpu := { s.cpu with cycles := s.cpu.cycles + 1 } }
      else s
    ({ s with cpu := { s.cpu with pc := Register.setReg 16 s.cpu.absAddress } }, 0)
  else (s, 0)

/-- `CLC`: clear carry. -/
def CLC (s : NES) : NES × Nat := (psClearBit s 0, 0)

/-- `CLD`: clear decimal. -/
def CLD (s : NES) : NES × Nat := (psClearBit s 3, 0)

/-- `CLI`: clear interrupt disable. -/
def CLI (s : NES) : NES × Nat := (psClearBit s 2, 0)

/-- `CLV`: clear overflow. -/
def CLV (s : NES) : NES × Nat := (psClearBit s 6, 0)

/-- `CMP`: compare with accumulator.  The difference is truncated through a
Uint16Array and the carry is computed as `temp[0] > fetched`, exactly as the
source does. -/
def CMP (s : NES) : NES × Nat :=
  let ld := loadFromMemory s
  let s := { ld.2 with cpu := { ld.2.cpu with fetched := ld.1 } }
  let temp : Nat := (((s.cpu.acc : Int) - (s.cpu.fetched : Int)).emod 65536).toNat
  let s := setFlag s 7 (if temp &&& 0x0080 ≠ 0 then 1 else 0)
  let s := setFlag s 0 (if temp > s.cpu.fetched then 1 else 0)
  let s := setFlag s 1 (if temp &&& 0x00FF == 0x0000 then 1 else 0)
  (s, 1)

/-- `CPX`: compare with X, same flag computation as `CMP`. -/
def CPX (s : NES) : NES × Nat :=
  let ld := loadFromMemory s
  let s := { ld.2 with cpu := { ld.2.cpu with fetched := ld.1 } }
  let temp : Nat := (((s.cpu.irx : Int) - (s.cpu.fetched : Int)).emod 65536).toNat
  let s := setFlag s 7 (if temp &&& 0x0080 ≠ 0 then 1 else 0)
  let s := setFlag s 0 (if temp > s.cpu.fetched then 1 else 0)
  let s := setFlag s 1 (if temp &&& 0x00FF == 0x0000 then 1 else 0)
  (s, 0)

/-- `CPY`: compare with Y, same flag computation as `CMP`. -/
def CPY (s : NES) : NES × Nat :=
  let ld := loadFromMemory s
  let s := { ld.2 with cpu := { ld.2.cpu with fetched := ld.1 } }
  let temp : Nat := (((s.cpu.iry : Int) - (s.cpu.fetched : Int)).emod 65536).toNat
  let s := setFlag s 7 (if temp &&& 0x0080 ≠ 0 then 1 else 0)
  let s := setFlag s 0 (if temp > s.cpu.fetched then 1 else 0)
  let s := setFlag s 1 (if temp &&& 0x00FF == 0x0000 then 1 else 0)
  (s, 0)

/-- `DEC`: decrement memory (the working value is a plain JavaScript number,
so it can be -1). -/
def DEC (s : NES) : NES × Nat :=
  let ld := loadFromMemory s
  let s := { ld.2 with cpu := { ld.2.cpu with fetched := ld.1 } }
  let temp : Int := (s.cpu.fetched : Int) - 1
  let s := writeToMemory s s.cpu.absAddress (u32ofInt temp &&& 0x00FF)
  let s := setFlag s 1 (if temp == 0x00 then 1 else 0)
  let s := setFlag s 7 (if u32ofInt temp &&& 0x80 ≠ 0 then 1 else 0)
  (s, 0)

/-- `DEX`: decrement X. -/
def DEX (s : NES) : NES × Nat :=
  let s := { s with cpu := { s.cpu with irx := Register.decr 8 s.cpu.irx } }
  let s := setFlag s 1 (if s.cpu.irx == 0x00 then 1 else 0)
  let s := setFlag s 7 (if s.cpu.irx &&& 0x80 ≠ 0 then 1 else 0)
  (s, 0)

/-- `DEY`: decrement Y. -/
def DEY (s : NES) : NES × Nat :=
  let s := { s with cpu := { s.cpu with iry := Register.decr 8 s.cpu.iry } }
  let s := setFlag s 1 (if s.cpu.iry == 0x00 then 1 else 0)
  let s := setFlag s 7 (if s.cpu.iry &&& 0x80 ≠ 0 then 1 else 0)
  (s, 0)

/-- `EOR`: exclusive or with accumulator. -/
def EOR (s : NES) : NES × Nat :=
  let ld := loadFromMemory s
  let s := { ld.2 with cpu := { ld.2.cpu with fetched := ld.1 } }
  let temp := s.cpu.acc ^^^ s.cpu.fetched
  let s := { s with cpu := { s.cpu with acc := Register.setReg 8 temp } }
  let s := setFlag s 1 (if s.cpu.acc == 0x00 then 1 else 0)
  let s := setFlag s 7 (if s.cpu.acc &&& 0x80 ≠ 0 then 1 else 0)
  (s, 0)

/-- `INC`: increment memory; N receives the raw `& 0x80` value through
`storeBit`, as in the source. -/
def INC (s : NES) : NES × Nat :=
  let ld := loadFromMemory s
  let s := { ld.2 with cpu := { ld.2.cpu with fetched := ld.1 } }
  let temp := s.cpu.fetched + 1
  let s := busWrite s s.cpu.absAddress temp
  let s := setFlag s 7 ((temp &&& 0x0080 : Nat) : Int)
  let s := setFlag s 1 (if temp &&& 0x00FF == 0x0000 then 1 else 0)
  (s, 0)

/-- `INX`: increment X. -/
def INX (s : NES) : NES × Nat :=
  let s := { s with cpu := { s.cpu with irx := Register.incr 8 s.cpu.irx } }
  let s := setFlag s 1 (if s.cpu.irx == 0x00 then 1 else 0)
  let s := setFlag s 7 (if s.cpu.irx &&& 0x80 ≠ 0 then 1 else 0)
  (s, 0)

/-- `INY`: increment Y. -/
def INY (s : NES) : NES × Nat :=
  let s := { s with cpu := { s.cpu with iry := Register.incr 8 s.cpu.iry } }
  let s := setFlag s 1 (if s.cpu.iry == 0x00 then 1 else 0)
  let s := setFlag s 7 (if s.cpu.iry &&& 0x80 ≠ 0 then 1 else 0)
  (s, 0)

/-- `JMP`: jump to the resolved absolute address. -/
def JMP (s : NES) : NES × Nat :=
  ({ s with cpu := { s.cpu with pc := Register.setReg 16 s.cpu.absAddress } }, 0)

/-- `JSR`: jump to subroutine. -/
def JSR (s : NES) : NES × Nat :=
  let s := { s with cpu := { s.cpu with pc := Register.decr 16 s.cpu.pc } }
  let s := writeToStack s ((s.cpu.pc >>> 8) &&& 0x00FF)
  let s := writeToStack s (s.cpu.pc &&& 0x00FF)
  ({ s with cpu := { s.cpu with pc := Register.setReg 16 s.cpu.absAddress } }, 0)

/-- `LDA`: load accumulator. -/
def LDA (s : NES) : NES × Nat :=
  let ld := loadFromMemory s
  let s := { ld.2 with cpu := { ld.2.cpu with fetched := ld.1 } }
  let s := { s with cpu := { s.cpu with acc := Register.setReg 8 s.cpu.fetched } }
  let s := setFlag s 1 (if s.cpu.acc == 0x00 then 1 else 0)
  let s := setFlag s 7 (if s.cpu.acc &&& 0x80 ≠ 0 then 1 else 0)
  (s, 1)

/-- `LDX`: load X. -/
def LDX (s : NES) : NES × Nat :=
  let ld := loadFromMemory s
  let s := { ld.2 with cpu := { ld.2.cpu with fetched := ld.1 } }
  let s := { s with cpu := { s.cpu with irx := Register.setReg 8 s.cpu.fetched } }
  let s := setFlag s 1 (if s.cpu.irx == 0x00 then 1 else 0)
  let s := setFlag s 7 (if s.cpu.irx &&& 0x80 ≠ 0 then 1 else 0)
  (s, 1)

/-- `LDY`: load Y. -/
def LDY (s : NES) : NES × Nat :=
  let ld := loadFromMemory s
  let s := { ld.2 with cpu := { ld.2.cpu with fetched := ld.1 } }
  let s := { s with cpu := { s.cpu with iry := Register.setReg 8 s.cpu.fetched } }
  let s := setFlag s 1 (if s.cpu.iry == 0x00 then 1 else 0)
  let s := setFlag s 7 (if s.cpu.iry &&& 0x80 ≠ 0 then 1 else 0)
  (s, 1)

/-- `LSR`: logical shift right.  The accumulator branch tests
`addrMode === IMM` (not ACC), as in the source. -/
def LSR (s : NES) : NES × Nat :=
  let ld := loadFromMemory s
  let s := { ld.2 with cpu := { ld.2.cpu with fetched := ld.1 } }
  let s := setFlag s 0 ((s.cpu.fetched &&& 0x0001 : Nat) : Int)
  let temp := s.cpu.fetched >>> 1
  let s := setFlag s 7 (if temp &&& 0x0080 ≠ 0 then 1 else 0)
  let s := setFlag s 1 (if temp &&& 0x00FF == 0x0000 then 1 else 0)
  let s :=
    if (opTable s.cpu.opcode).addrMode == some AddressingMode.IMM then
      { s with cpu := { s.cpu with acc := Register.setReg 8 temp } }
    else
      busWrite s s.cpu.absAddress (temp &&& 0x00FF)
  (s, 0)

/-- `NOP`: no operation; only the listed page-cross opcodes return an extra
cycle. -/
def NOP (s : NES) : NES × Nat :=
  if s.cpu.opcode == 0x1C ∨ s.cpu.opcode == 0x3C ∨ s.cpu.opcode == 0x5C ∨
     s.cpu.opcode == 0x7C ∨ s.cpu.opcode == 0xDC ∨ s.cpu.opcode == 0xFC then
    (s, 1)
  else (s, 0)

/-- `ORA`: or with accumulator. -/
def ORA (s : NES) : NES × Nat :=
  let ld := loadFromMemory s
  let s := { ld.2 with cpu := { ld.2.cpu with fetched := ld.1 } }
  let temp := s.cpu.acc ||| s.cpu.fetched
  let s := { s with cpu := { s.cpu with acc := Register.setReg 8 temp } }
  let s := setFlag s 1 (if s.cpu.acc == 0x00 then 1 else 0)
  let s := setFlag s 7 (if s.cpu.acc &&& 0x80 ≠ 0 then 1 else 0)
  (s, 0)

/-- `PHA`: push accumulator. -/
def PHA (s : NES) : NES × Nat :=
  let s := writeToMemory s (0x0100 + s.cpu.sp) s.cpu.acc
  let s := { s with cpu := { s.cpu with sp := Register.decr 8 s.cpu.sp } }
  (s, 0)

/-- `PHP`: push processor status; the source then sets bits 4 and 5 on the
stack pointer (not the status register). -/
def PHP (s : NES) : NES × Nat :=
  let s := writeToMemory s (0x0100 + s.cpu.sp) s.cpu.ps
  let s := { s with cpu := { s.cpu with sp := Register.setBit 8 s.cpu.sp 4 } }
  let s := { s with cpu := { s.cpu with sp := Register.setBit 8 s.cpu.sp 5 } }
  let s := { s with cpu := { s.cpu with sp := Register.decr 8 s.cpu.sp } }
  (s, 0)

/-- `PLA`: pull accumulator. -/
def PLA (s : NES) : NES × Nat :=
  let s := { s with cpu := { s.cpu with sp := Register.incr 8 s.cpu.sp } }
  let rd := busReadN s (0x0100 + s.cpu.sp)
  let s := { rd.2 with cpu := { rd.2.cpu with acc := Register.setReg 8 rd.1 } }
  let s := setFlag s 1 (if s.cpu.acc == 0x00 then 1 else 0)
  let s := setFlag s 7 (if s.cpu.acc &&& 0x80 ≠ 0 then 1 else 0)
  (s, 0)

/-- `PLP`: pull processor status; the source then sets bit 5 on the stack
pointer (not the status register). -/
def PLP (s : NES) : NES × Nat :=
  let s := { s with cpu := { s.cpu with sp := Register.incr 8 s.cpu.sp } }
  let rd := busReadN s (0x0100 + s.cpu.sp)
  let s := withPS rd.2 (Register.setReg 8 rd.1)
  let s := { s with cpu := { s.cpu with sp := Register.setBit 8 s.cpu.sp 5 } }
  (s, 0)

/-- `ROL`: rotate left; the carry receives bit 0 of the operand and the
accumulator branch tests `addrMode === IMM`, as in the source. -/
def ROL (s : NES) : NES × Nat :=
  let ld := loadFromMemory s
  let s := { ld.2 with cpu := { ld.2.cpu with fetched := ld.1 } }
  let temp := (s.cpu.fetched <<< 1) ||| Register.getBit s.cpu.ps 0
  let s := setFlag s 0 ((s.cpu.fetched &&& 0x0001 : Nat) : Int)
  let s := setFlag s 7 (if temp &&& 0x0080 ≠ 0 then 1 else 0)
  let s := setFlag s 1 (if temp &&& 0x00FF == 0x0000 then 1 else 0)
  let s :=
    if (opTable s.cpu.opcode).addrMode == some AddressingMode.IMM then
      { s with cpu := { s.cpu with acc := Register.setReg 8 (temp &&& 0x00FF) } }
    else
      busWrite s s.cpu.absAddress (temp &&& 0x00FF)
  (s, 0)

/-- `ROR`: rotate right; the accumulator branch tests `addrMode === IMM`, as
in the source. -/
def ROR (s : NES) : NES × Nat :=
  let ld := loadFromMemory s
  let s := { ld.2 with cpu := { ld.2.cpu with fetched := ld.1 } }
  let temp := (Register.getBit s.cpu.ps 0 <<< 7) ||| (s.cpu.fetched >>> 1)
  let s := setFlag s 0 ((s.cpu.fetched &&& 0x01 : Nat) : Int)
  let s := setFlag s 7 (if temp &&& 0x0080 ≠ 0 then 1 else 0)
  let s := setFlag s 1 (if temp &&& 0x00FF == 0x00 then 1 else 0)
  let s :=
    if (opTable s.cpu.opcode).addrMode == some AddressingMode.IMM then
      { s with cpu := { s.cpu with acc := Register.setReg 8 (temp &&& 0x00FF) } }
    else
      busWrite s s.cpu.absAddress (temp &&& 0x00FF)
  (s, 0)

/-- `RTI`: return from interrupt. -/
def RTI (s : NES) : NES × Nat :=
  let rd := readFromStack s
  let s := withPS rd.2 (Register.setReg 8 rd.1)
  let s := psClearBit s 4
  let rdl := readFromStack s
  let rdh := readFromStack rdl.2
  ({ rdh.2 with cpu := { rdh.2.cpu with pc := Register.setReg 16 ((rdh.1 <<< 8) ||| rdl.1) } }, 0)

/-- `RTS`: return from subroutine. -/
def RTS (s : NES) : NES × Nat :=
  let rdl := readFromStack s
  let rdh := readFromStack rdl.2
  let s := { rdh.2 with cpu := { rdh.2.cpu with pc := Register.setReg 16 ((rdh.1 <<< 8) ||| rdl.1) } }
  ({ s with cpu := { s.cpu with pc := Register.incr 16 s.cpu.pc } }, 0)

/-- `SBC`: subtract with carry (add of the operand xor 0xFF); the V
computation stores the raw `& 0x80` value, as in the source. -/
def SBC (s : NES) : NES × Nat :=
  let ld := loadFromMemory s
  let s := { ld.2 with cpu := { ld.2.cpu with fetched := ld.1 } }
  let val := s.cpu.fetched ^^^ 0x00FF
  let temp := s.cpu.acc + val + Register.getBit s.cpu.ps 0
  let s1 := setFlag s 0 (if temp > 255 then 1 else 0)
  let s2 := setFlag s1 7 (if temp &&& 0x80 ≠ 0 then 1 else 0)
  let s3 := setFlag s2 1 (if temp &&& 0x00FF == 0 then 1 else 0)
  let s4 := setFlag s3 6 (((s.cpu.acc ^^^ s.cpu.fetched) &&& (s.cpu.acc ^^^ temp) &&& 0x0080 : Nat) : Int)
  ({ s4 with cpu := { s4.cpu with acc := Register.setReg 8 (temp &&& 0x00FF) } }, 1)

/-- `SEC`: set carry. -/
def SEC (s : NES) : NES × Nat := (psSetBit s 0, 0)

/-- `SED`: set decimal. -/
def SED (s : NES) : NES × Nat := (psSetBit s 3, 0)

/-- `SEI`: set interrupt disable. -/
def SEI (s : NES) : NES × Nat := (psSetBit s 2, 0)

/-- `STA`: store accumulator. -/
def STA (s : NES) : NES × Nat := (busWrite s s.cpu.absAddress s.cpu.acc, 0)

/-- `STX`: store X. -/
def STX (s : NES) : NES × Nat := (busWrite s s.cpu.absAddress s.cpu.irx, 0)

/-- `STY`: store Y. -/
def STY (s : NES) : NES × Nat := (busWrite s s.cpu.absAddress s.cpu.iry, 0)

/-- `TAX`: transfer accumulator to X. -/
def TAX (s : NES) : NES × Nat :=
  let s := { s with cpu := { s.cpu with irx := Register.setReg 8 s.cpu.acc } }
  let s := setFlag s 1 (if s.cpu.irx == 0x00 then 1 else 0)
  let s := setFlag s 7 (if s.cpu.irx &&& 0x80 ≠ 0 then 1 else 0)
  (s, 0)

/-- `TAY`: transfer accumulator to Y. -/
def TAY (s : NES) : NES × Nat :=
  let s := { s with cpu := { s.cpu with iry := Register.setReg 8 s.cpu.acc } }
  let s := setFlag s 1 (if s.cpu.iry == 0x00 then 1 else 0)
  let s := setFlag s 7 (if s.cpu.iry &&& 0x80 ≠ 0 then 1 else 0)
  (s, 0)

/-- `TSX`: transfer stack pointer to X. -/
def TSX (s : NES) : NES × Nat :=
  let s := { s with cpu := { s.cpu with irx := Register.setReg 8 s.cpu.sp } }
  let s := setFlag s 1 (if s.cpu.irx == 0x00 then 1 else 0)
  let s := setFlag s 7 (if s.cpu.irx &&& 0x80 ≠ 0 then 1 else 0)
  (s, 0)

/-- `TXA`: transfer X to accumulator. -/
def TXA (s : NES) : NES × Nat :=
  let s := { s with cpu := { s.cpu with acc := Register.setReg 8 s.cpu.irx } }
  let s := setFlag s 1 (if s.cpu.acc == 0x00 then 1 else 0)
  let s := setFlag s 7 (if s.cpu.acc &&& 0x80 ≠ 0 then 1 else 0)
  (s, 0)

/-- `TXS`: transfer X to stack pointer (no flags). -/
def TXS (s : NES) : NES × Nat :=
  ({ s with cpu := { s.cpu with sp := Register.setReg 8 s.cpu.irx } }, 0)

/-- `TYA`: transfer Y to accumulator. -/
def TYA (s : NES) : NES × Nat :=
  let s := { s with cpu := { s.cpu with acc := Register.setReg 8 s.cpu.iry } }
  let s := setFlag s 1 (if s.cpu.acc == 0x00 then 1 else 0)
  let s := setFlag s 7 (if s.cpu.acc &&& 0x80 ≠ 0 then 1 else 0)
  (s, 0)

/-- Dispatch `operation.handler()` by the table name (the constructor binds
each handler to the instance; the BIT and ROR methods are referenced unbound
in the source, a defect in `this`-binding that a state-passing embedding
cannot express — they are dispatched like the bound ones here). -/
def execHandler : OpName → NES → NES × Nat
  | .ADC, s => ADC s
  | .AND, s => AND s
  | .ASL, s => ASL s
  | .BCC, s => BCC s
  | .BCS, s => BCS s
  | .BEQ, s => BEQ s
  | .BIT, s => BIT s
  | .BMI, s => BMI s
  | .BNE, s => BNE s
  | .BPL, s => BPL s
  | .BRK, s => BRK s
  | .BVC, s => BVC s
  | .BVS, s => BVS s
  | .CLC, s => CLC s
  | .CLD, s => CLD s
  | .CLI, s => CLI s
  | .CLV, s => CLV s
  | .CMP, s => CMP s
  | .CPX, s => CPX s
  | .CPY, s => CPY s
  | .DEC, s => DEC s
  | .DEX, s => DEX s
  | .DEY, s => DEY s
  | .EOR, s => EOR s
  | .INC, s => INC s
  | .INX, s => INX s
  | .INY, s => INY s
  | .JMP, s => JMP s
  | .JSR, s => JSR s
  | .LDA, s => LDA s
  | .LDX, s => LDX s
  | .LDY, s => LDY s
  | .LSR, s => LSR s
  | .NOP, s => NOP s
  | .ORA, s => ORA s
  | .PHA, s => PHA s
  | .PHP, s => PHP s
  | .PLA, s => PLA s
  | .PLP, s => PLP s
  | .ROL, s => ROL s
  | .ROR, s => ROR s
  | .RTI, s => RTI s
  | .RTS, s => RTS s
  | .SBC, s => SBC s
  | .SEC, s => SEC s
  | .SED, s => SED s
  | .SEI, s => SEI s
  | .STA, s => STA s
  | .STX, s => STX s
  | .STY, s => STY s
  | .TAX, s => TAX s
  | .TAY, s => TAY s
  | .TSX, s => TSX s
  | .TXA, s => TXA s
  | .TXS, s => TXS s
  | .TYA, s => TYA s

/-- `fetchNextOpcode`: read the byte at PC and increment PC. -/
def fetchNextOpcode (s : NES) : Nat × NES :=
  let rd := busReadN s s.cpu.pc
  (rd.1, { rd.2 with cpu := { rd.2.cpu with pc := Register.incr 16 rd.2.cpu.pc } })

/-- `CPU.clock`: when `cycles === 0`, fetch, decode, force status bit 5, set
the base cycle count, run the addressing-mode resolver and the handler and
add their extra cycles; then always decrement `cycles` and bump the internal
counter. -/
def clock (s : NES) : NES :=
  let s :=
    if s.cpu.cycles == 0 then
      let fo := fetchNextOpcode s
      let s := { fo.2 with cpu := { fo.2.cpu with opcode := fo.1 } }
      let operation := opTable s.cpu.opcode
      let s := psSetBit s 5
      let s := { s with cpu := { s.cpu with cycles := (operation.cycles : Int) } }
      let am := execAddrModeFunc s operation.addrMode
      let oh := execHandler operation.name am.1
      let s := oh.1
      { s with cpu := { s.cpu with cycles := s.cpu.cycles + (am.2 : Int) + (oh.2 : Int) } }
    else s
  { s with cpu := { s.cpu with cycles := s.cpu.cycles - 1,
                               internalClock := s.cpu.internalClock + 1 } }

/-- `CPU.clock` iterated n times. -/
def clockN : Nat → NES → NES
  | 0, s => s
  | n + 1, s => clockN n (clock s)

/-- `CPU.NMI`: push PC and status (B cleared, I set), load the vector at
0xFFFA/0xFFFB, and set `cycles = 8`. -/
def NMI (s : NES) : NES :=
  let s := writeToStack s ((s.cpu.pc >>> 8) &&& 0x00FF)
  let s := writeToStack s (s.cpu.pc &&& 0x00FF)
  let s := psClearBit s 4
  let s := psSetBit s 2
  let s := writeToStack s s.cpu.ps
  let s := { s with cpu := { s.cpu with absAddress := 0xFFFA } }
  let rdl := busReadN s s.cpu.absAddress
  let rdh := busReadN rdl.2 (rdl.2.cpu.absAddress + 1)
  let s := { rdh.2 with cpu := { rdh.2.cpu with pc := Register.setReg 16 ((rdh.1 <<< 8) ||| rdl.1) } }
  { s with cpu := { s.cpu with cycles := 8 } }

end CPU

/-- The three externally visible actions inside one `Bus.clock` call, in the
order they are invoked. -/
inductive Event where
  | ppuTick
  | cpuTick
  | nmiDeliver
  deriving DecidableEq, Repr

/-- The tick part of `Bus.clock`: the PPU advances one dot, and on every
third system tick (counted from 0) the CPU advances one cycle. -/
def busClockTickPhase (s : NES) : NES :=
  let s1 := { s with ppu := PPUState.clock s.rom s.ppu }
  if s.systemClock % 3 == 0 then CPU.clock s1 else s1

/-- `Bus.clock`: PPU tick, conditional CPU tick, then NMI edge delivery
(clear the edge, call `cpu.NMI()`), then increment the system tick counter.
The returned list records which actions ran, in order. -/
def busClock (s : NES) : NES × List Event :=
  let s1 := { s with ppu := PPUState.clock s.rom s.ppu }
  let step2 : NES × List Event :=
    if s.systemClock % 3 == 0 then (CPU.clock s1, [Event.cpuTick]) else (s1, [])
  let s2 := step2.1
  let step3 : NES × List Event :=
    if s2.ppu.nmi then
      (CPU.NMI { s2 with ppu := { s2.ppu with nmi := false } }, [Event.nmiDeliver])
    else (s2, [])
  ({ step3.1 with systemClock := s.systemClock + 1 }, Event.ppuTick :: (step2.2 ++ step3.2))

/-! ## Concrete states used by the claim theorems -/

/-- The PPU state as the constructor builds it (all latches zero except
`PPUSTATUS = 0x80`, counters at zero, memories zeroed). -/
def PPUState.init : PPUState :=
  { PPUCTRL := 0, PPUMASK := 0, PPUSTATUS := 0x80, OAMADDR := 0, OAMDATA := 0
    PPUSCROLL := 0, PPUADDR := 0, PPUDATA := 0, OAMDMA := 0
    vReg := 0, tReg := 0, OAM := fun _ => 0, fineX := 0, w := 0
    nametable0 := fun _ => 0, nametable1 := fun _ => 0
    patternTable0 := fun _ => 0, patternTable1 := fun _ => 0
    paletteTable := fun _ => 0
    shiftPatternLow := 0, shiftPatternHigh := 0
    shiftAttribLow := 0, shiftAttribHigh := 0
    tileID := 0, tileAttr := 0, tileLSB := 0, tileMSB := 0
    scanline := 0, cycle := 0, frameComplete := false, nmi := false
    frame := [], displayUpdates := 0 }

/-- The CPU state as the constructor builds it (`PS = 0x36`, everything else
zero). -/
def CPUState.init : CPUState :=
  { pc := 0, sp := 0, acc := 0, irx := 0, iry := 0, ps := 0x36
    fetched := 0, absAddress := 0, relAddress := 0, opcode := 0
    cycles := 0, internalClock := 0 }

/-- A freshly constructed machine around a given cartridge and RAM image. -/
def mkNES (rom : ROM) (ram : Nat → Nat) : NES :=
  { cpu := CPUState.init, ppu := PPUState.init, rom := rom, cpuRAM := ram
    controller := ⟨0, 0⟩, controllerState := ⟨0, 0⟩, systemClock := 0 }

/-- An NROM-256 cartridge (2 PRG banks, 1 CHR bank) with zeroed contents. -/
def romZero : ROM :=
  mkROM ⟨2, 1, .HORIZONTAL⟩ (fun _ => 0) (fun _ => 0)

/-! ## Claim theorems -/

/-- A cartridge whose first PRG byte is nonzero (0x4C), used to exhibit the
offset-0 behaviour of `ROM.cpuRead`. -/
def romC3 : ROM :=
  mkROM ⟨2, 1, .HORIZONTAL⟩ (fun i => if i == 0 then 0x4C else 0) (fun _ => 0)

/-- A machine around `romC3`. -/
def nesC3 : NES := mkNES romC3 (fun _ => 0)

/-- C2: for every register cell value, position p and width w, `store_bits`
should write `v & ((1<<w)-1)` at p and leave bits outside [p, p+w)
unchanged.  The current register.ts `storeBits` fails this already at cell
value 0xFF, v = 0, {p = 0, w = 1}: the cell becomes 0xFD, so `get_bits`
returns 1 instead of 0 and bit 1 (outside the field) flips from 1 to 0.
The alternate (older) `storeBits` satisfies the contract at the same input,
producing 0xFE. -/
theorem c2_storeBits_breaks_contract_at_FF_0_0_1 :
    Register.storeBits 8 0xFF 0 0 1 = 0xFD ∧
    Register.getBits (Register.storeBits 8 0xFF 0 0 1) 0 1 = 1 ∧
    Register.getBit (Register.storeBits 8 0xFF 0 0 1) 1 = 0 ∧
    Register.storeBitsAlt 8 0xFF 0 0 1 = 0xFE ∧
    Register.getBits (Register.storeBitsAlt 8 0xFF 0 0 1) 0 1 = 0 ∧
    Register.getBit (Register.storeBitsAlt 8 0xFF 0 0 1) 1 = 1 := by decide

/-- C3: on a CPU-side `Bus.read` the mapper accepts 0x8000 with mapped
offset 0 and the PRG byte there is 0x4C, yet `ROM.cpuRead` tests the offset
for truthiness, reports a decline (`null`), and the bus read returns 0
instead of the PRG-ROM byte. -/
theorem c3_mapped_offset_zero_read_as_declined :
    romC3.mapper.cpuMapRead 0x8000 = some 0 ∧
    romC3.prg 0 = 0x4C ∧
    romC3.cpuRead 0x8000 = JsVal.null ∧
    (busRead nesC3 0x8000).1 = JsVal.num 0 := by decide

/-- Following the claim text for C4: the NROM CPU mapping with the bank
count taken from the iNES header (`addr & 0x7FFF` for more than one 16 KiB
PRG bank, `addr & 0x3FFF` for exactly one). -/
def claimNROMCpuMap (h : Header) (addr : Nat) : Option Nat :=
  if isInRange addr 0x8000 0xFFFF then
    some (addr &&& (if h.prgUnits > 1 then 0x7FFF else 0x3FFF))
  else
    none

/-- Following the claim text for C4: NROM PPU writes are accepted (identity
offset) exactly when the header CHR bank count is 0. -/
def claimNROMPpuMapWrite (h : Header) (addr : Nat) : Option Nat :=
  if isInRange addr 0x0000 0x1FFF then
    if h.chrUnits == 0 then some addr else none
  else
    none

/-- An NROM-128 CHR-RAM cartridge: 1 PRG bank, 0 CHR banks. -/
def romC4 : ROM := mkROM ⟨1, 0, .HORIZONTAL⟩ (fun _ => 0) (fun _ => 0)

/-- C4: the `ROM` constructor instantiates Mapper000 with the byte-size
constants (16384, 8192) instead of the header bank counts, so for a
cartridge with exactly one PRG bank the CPU mapping masks with 0x7FFF (the
claim demands 0x3FFF: 0xC000 should map to 0x0000, the code maps it to
0x4000), and a PPU write is never accepted even though the header CHR bank
count is 0. -/
theorem c4_mapper_gets_byte_constants_not_bank_counts :
    romC4.header.prgUnits = 1 ∧
    romC4.header.chrUnits = 0 ∧
    romC4.mapper.PRGROMsize = 16384 ∧
    romC4.mapper.CHRROMsize = 8192 ∧
    romC4.mapper.cpuMapRead 0xC000 = some 0x4000 ∧
    claimNROMCpuMap romC4.header 0xC000 = some 0x0000 ∧
    romC4.mapper.ppuMapWrite 0x0010 = none ∧
    claimNROMPpuMapWrite romC4.header 0x0010 = some 0x0010 := by decide

/-- A PPU state about to read PPUDATA with `v` in the palette range: the
read buffer holds the stale byte 0x09 and palette entry 0 holds 0x05. -/
def ppuC5 : PPUState :=
  { PPUState.init with
      vReg := 0x3F00
      PPUDATA := 0x09
      paletteTable := fun i => if i == 0 then 0x05 else 0 }

/-- The same PPU state with the PPUCTRL increment bit set. -/
def ppuC5b : PPUState := { ppuC5 with PPUCTRL := 0x04 }

/-- C5: a CPU read of PPUDATA with `v = 0x3F00` (palette range).  The fresh
palette byte is 0x05 and the claim demands it be returned un-buffered; the
code instead returns the stale buffer 0x09, because its palette-range test
compares the register index (always 7) rather than `v`.  The buffer refill
and the +1 / +32 increment of `v` behave as claimed. -/
theorem c5_palette_read_not_unbuffered :
    PPUState.ppuRead romZero ppuC5 0x3F00 = 0x05 ∧
    (PPUState.cpuRead romZero ppuC5 7).1 = 0x09 ∧
    (PPUState.cpuRead romZero ppuC5 7).2.PPUDATA = 0x05 ∧
    (PPUState.cpuRead romZero ppuC5 7).2.vReg = 0x3F01 ∧
    (PPUState.cpuRead romZero ppuC5b 7).2.vReg = 0x3F20 := by decide

/-- A machine whose next opcode is the unimplemented slot 0x02. -/
def nesC1 : NES := mkNES romZero (fun a => if a == 0 then 0x02 else 0)

/-- A machine whose next opcode is the official NOP 0xEA. -/
def nesC1ea : NES := mkNES romZero (fun a => if a == 0 then 0xEA else 0)

/-- C1: starting from `cycles_remaining = 0` with PC at an unimplemented
slot (opcode 0x02, table entry `addrMode: null`, 0 cycles), one `clock()`
leaves `cycles_remaining = -1` with PC advanced by only one byte, and
further clocks drive it to -2: the between-instruction invariant is never
restored and the cycle count is not positive (for contrast, the official
NOP 0xEA restores `cycles_remaining = 0` after its two cycles). -/
theorem c1_unimplemented_slot_breaks_invariant :
    (opTable 0x02).cycles = 0 ∧
    (opTable 0x02).addrMode = none ∧
    (CPU.clock nesC1).cpu.cycles = -1 ∧
    (CPU.clock nesC1).cpu.pc = 1 ∧
    (CPU.clockN 2 nesC1).cpu.cycles = -2 ∧
    (CPU.clockN 2 nesC1ea).cpu.cycles = 0 ∧
    (CPU.clockN 2 nesC1ea).cpu.pc = 1 := by decide

/-- A machine about to execute `CMP #$50` with A = 0x50. -/
def nesC6 : NES :=
  { mkNES romZero (fun a => if a == 0 then 0xC9 else if a == 1 then 0x50 else 0) with
      cpu := { CPUState.init with acc := 0x50 } }

/-- A machine about to execute `CMP #$50` with A = 0x60. -/
def nesC6b : NES :=
  { mkNES romZero (fun a => if a == 0 then 0xC9 else if a == 1 then 0x50 else 0) with
      cpu := { CPUState.init with acc := 0x60 } }

/-- C6: executing `CMP #$50` with A = 0x50 (so reg ≥ operand, and the claim
demands C = 1) leaves the carry clear, because the code computes C as
`((reg − operand) mod 2^16) > operand` instead of `reg ≥ operand`; with
A = 0x60 the carry is clear as well.  Z and N behave as claimed at these
inputs (Z = 1, N = 0 for the equal case; Z = 0 for the greater case). -/
theorem c6_cmp_carry_flag_wrong :
    Register.getBit (CPU.clock nesC6).cpu.ps 0 = 0 ∧
    Register.getBit (CPU.clock nesC6).cpu.ps 1 = 1 ∧
    Register.getBit (CPU.clock nesC6).cpu.ps 7 = 0 ∧
    Register.getBit (CPU.clock nesC6b).cpu.ps 0 = 0 ∧
    Register.getBit (CPU.clock nesC6b).cpu.ps 1 = 0 := by decide

/-- A machine running `LDX #$07` then `LSR` in accumulator mode (0x4A),
with A = 0x55; after the LDX, the absolute-address latch points at the
immediate byte in RAM (address 1, holding 0x07). -/
def nesC7 : NES :=
  { mkNES romZero
      (fun a => if a == 0 then 0xA2 else if a == 1 then 0x07 else if a == 2 then 0x4A else 0) with
      cpu := { CPUState.init with acc := 0x55 } }

/-- C7: the accumulator-mode LSR (0x4A) should read its operand from A
(0x55), write the shifted result 0x2A back to A and leave memory unchanged.
After five clocks (LDX takes three, LSR completes on the fourth and
fifth) the code has instead fetched the operand from memory at the stale
absolute address (0x07 at RAM[1]), left A at 0x55, and overwritten RAM[1]
with 0x03 — the handler tests `addrMode === IMM` instead of ACC, and
`loadFromMemory` exempts only IMP. -/
theorem c7_lsr_acc_operates_on_memory :
    (opTable 0x4A).addrMode = some AddressingMode.ACC ∧
    (CPU.clockN 5 nesC7).cpu.opcode = 0x4A ∧
    (CPU.clockN 5 nesC7).cpu.fetched = 0x07 ∧
    (CPU.clockN 5 nesC7).cpu.acc = 0x55 ∧
    (CPU.clockN 5 nesC7).cpuRAM 1 = 0x03 ∧
    (CPU.clockN 5 nesC7).cpu.cycles = 0 := by decide

/-- `isInRange` is false below the range. -/
theorem isInRange_false_of_lt {val start stop : Nat} (h : val < start) :
    isInRange val start stop = false := by
  simp only [isInRange, Bool.and_eq_false_iff, decide_eq_false_iff_not, Nat.not_le]
  omega

/-- `ROM.cpuRead` declines every address below 0x8000, for any cartridge. -/
theorem ROM.cpuRead_decline (r : ROM) (a : Nat) (h : a < 0x8000) :
    r.cpuRead a = JsVal.null := by
  simp [ROM.cpuRead, Mapper000.cpuMapRead, isInRange_false_of_lt h]

/-- `ROM.cpuWrite` declines every address below 0x8000, for any cartridge. -/
theorem ROM.cpuWrite_decline (r : ROM) (a v : Nat) (h : a < 0x8000) :
    r.cpuWrite a v = (r, JsVal.null) := by
  simp [ROM.cpuWrite, Mapper000.cpuMapWrite, isInRange_false_of_lt h]

/-- A machine whose external controller bytes are both 0x81 (A + Right). -/
def nesC9 : NES := { mkNES romZero (fun _ => 0) with controller := ⟨0x81, 0x81⟩ }

/-- Successive CPU reads of port 0x4016, returning the bit sequence. -/
def controllerReadSeq : Nat → NES → List Nat
  | 0, _ => []
  | n + 1, s =>
    let r := busRead s 0x4016
    r.1.toNat :: controllerReadSeq n r.2

/-- C9 counterexample: with controller byte 0x81 on port 0x4017, a CPU
write to 0x4017 does not snapshot it into the port-1 shift latch (the
latches stay 0), and the following read of 0x4017 returns 0 — the claim
(latch then read bit 7) demands 1. -/
theorem c9_counterexample_port_4017_write_discarded :
    (busWrite nesC9 0x4017 0x01).controllerState = ⟨0, 0⟩ ∧
    (busRead (busWrite nesC9 0x4017 0x01) 0x4017).1 = JsVal.num 0 := by decide

/-- C9 amended: only port 0x4016 latches on write — a write to 0x4017 is
captured and discarded by the earlier APU/IO branch (`address === 0x4017`),
leaving the machine unchanged; reads of both ports return bit 7 of the
port latch and then shift it left; with controller byte 0x81 latched via a
write to 0x4016, eight reads of 0x4016 yield 1,0,0,0,0,0,0,1. -/
theorem c9_amended_controller_ports (s : NES) (v : Nat) :
    busWrite s 0x4016 v =
      { s with controllerState := s.controllerState.set 0 (s.controller.get 0 % 256) } ∧
    busWrite s 0x4017 v = s ∧
    busRead s 0x4016 =
      (JsVal.num (if (s.controllerState.get 0 &&& 0x80) > 0 then 1 else 0),
       { s with controllerState := s.controllerState.set 0 ((s.controllerState.get 0 <<< 1) % 256) }) ∧
    busRead s 0x4017 =
      (JsVal.num (if (s.controllerState.get 1 &&& 0x80) > 0 then 1 else 0),
       { s with controllerState := s.controllerState.set 1 ((s.controllerState.get 1 <<< 1) % 256) }) ∧
    controllerReadSeq 8 (busWrite nesC9 0x4016 0x01) = [1, 0, 0, 0, 0, 0, 0, 1] := by
  refine ⟨?_, ?_, ?_, ?_, by decide⟩
  · simp [busWrite, ROM.cpuWrite_decline s.rom 0x4016 v (by omega), JsVal.truthy,
      isInRange, Pair2.set]
  · simp [busWrite, ROM.cpuWrite_decline s.rom 0x4017 v (by omega), JsVal.truthy,
      isInRange]
  · simp [busRead, ROM.cpuRead_decline s.rom 0x4016 (by omega), isInRange, Pair2.get,
      Pair2.set]
  · simp [busRead, ROM.cpuRead_decline s.rom 0x4017 (by omega), isInRange, Pair2.get,
      Pair2.set]

/-- `cpuMapRead` and `cpuMapWrite` of Mapper000 are the same mapping. -/
theorem Mapper000.cpuMapRead_eq_cpuMapWrite (m : Mapper000) (a : Nat) :
    m.cpuMapRead a = m.cpuMapWrite a := rfl

/-- An NROM-128 cartridge (one 16 KiB PRG bank) with zeroed contents. -/
def romC10 : ROM := mkROM ⟨1, 1, .HORIZONTAL⟩ (fun _ => 0) (fun _ => 0)

/-- A machine around `romC10`. -/
def nesC10 : NES := mkNES romC10 (fun _ => 0)

/-- C10 counterexample: on a one-bank cartridge the mapper (instantiated
with the constant 16384, hence masking with 0x7FFF) maps 0xC001 to the
nonzero offset 0x4001, which lies beyond the 16 KiB PRG array: the store
is discarded by the typed array and the subsequent `Bus.read` returns the
out-of-bounds `undefined`, not the written byte 0xAA. -/
theorem c10_counterexample_out_of_bounds_offset :
    romC10.mapper.cpuMapWrite 0xC001 = some 0x4001 ∧
    romC10.prgSize = 16384 ∧
    (busWrite nesC10 0xC001 0xAA).rom.prg 0x4001 = 0 ∧
    (busRead (busWrite nesC10 0xC001 0xAA) 0xC001).1 = JsVal.undefined := by decide

/-- C10 amended: for every CPU address that the mapper maps to a nonzero
offset lying inside the PRG-ROM array, `Bus.write` of a byte stores it into
PRG-ROM at that offset, touches no other component, and the subsequent
`Bus.read` of the same address returns it (with unchanged state). -/
theorem c10_prgrom_write_read_roundtrip (s : NES) (a v o : Nat)
    (hmap : s.rom.mapper.cpuMapWrite a = some o) (ho : o ≠ 0)
    (hbound : o < s.rom.prgSize) (hv : v < 256) :
    (busWrite s a v).rom.prg o = v ∧
    (∀ j, j ≠ o → (busWrite s a v).rom.prg j = s.rom.prg j) ∧
    (busWrite s a v).rom.prgSize = s.rom.prgSize ∧
    (busWrite s a v).rom.mapper = s.rom.mapper ∧
    (busWrite s a v).cpuRAM = s.cpuRAM ∧
    (busWrite s a v).ppu = s.ppu ∧
    (busWrite s a v).controller = s.controller ∧
    (busWrite s a v).controllerState = s.controllerState ∧
    (busWrite s a v).cpu = s.cpu ∧
    busRead (busWrite s a v) a = (JsVal.num v, busWrite s a v) := by
  have hwrite : s.rom.cpuWrite a v =
      ({ s.rom with prg := fun j => if j = o then v % 256 else s.rom.prg j }, JsVal.num 1) := by
    simp [ROM.cpuWrite, hmap, ho, hbound]
  have hbus : busWrite s a v =
      { s with rom := { s.rom with prg := fun j => if j = o then v % 256 else s.rom.prg j } } := by
    simp [busWrite, hwrite, JsVal.truthy]
  have hvv : v % 256 = v := Nat.mod_eq_of_lt hv
  refine ⟨?_, ?_, ?_, ?_, ?_, ?_, ?_, ?_, ?_, ?_⟩
  · simp [hbus, hvv]
  · intro j hj; simp [hbus, hj]
  · simp [hbus]
  · simp [hbus]
  · simp [hbus]
  · simp [hbus]
  · simp [hbus]
  · simp [hbus]
  · simp [hbus]
  · have hread : (busWrite s a v).rom.cpuRead a = JsVal.num v := by
      simp [hbus, ROM.cpuRead, Mapper000.cpuMapRead_eq_cpuMapWrite, hmap, ho,
        ROM.prgAt, hbound, hvv]
    simp [busRead, hread]

/-- C10 witness: on a two-bank cartridge, writing 0xAA at 0x8001 (offset 1)
and reading it back through the bus yields 0xAA. -/
theorem c10_witness_roundtrip_at_8001 :
    (busWrite nesC3 0x8001 0xAA).rom.prg 1 = 0xAA ∧
    busRead (busWrite nesC3 0x8001 0xAA) 0x8001 = (JsVal.num 0xAA, busWrite nesC3 0x8001 0xAA) := by
  have h := c10_prgrom_write_read_roundtrip nesC3 0x8001 0xAA 1
    (by decide) (by decide) (by decide) (by decide)
  exact ⟨h.1, h.2.2.2.2.2.2.2.2.2⟩

/-- `isInRange` is false above the range. -/
theorem isInRange_false_of_gt {val start stop : Nat} (h : stop < val) :
    isInRange val start stop = false := by
  simp only [isInRange, Bool.and_eq_false_iff, decide_eq_false_iff_not, Nat.not_le]
  omega

/-- `Bus.write` never touches the CPU registers. -/
theorem busWrite_cpu (s : NES) (a v : Nat) : (busWrite s a v).cpu = s.cpu := by
  simp only [busWrite]
  split_ifs <;> rfl

/-- A `Bus.write` below 0x2000 lands in internal RAM and leaves the PPU
unchanged. -/
theorem busWrite_ppu_low (s : NES) (a v : Nat) (h : a < 0x2000) :
    (busWrite s a v).ppu = s.ppu := by
  have hr : isInRange a 0x0000 0x1FFF = true := by
    simp only [isInRange, Bool.and_eq_true, decide_eq_true_eq]
    omega
  simp [busWrite, ROM.cpuWrite_decline s.rom a v (by omega), JsVal.truthy, hr]

/-- A `Bus.read` at or above 0x4020 reaches only the cartridge (which
performs no side effect) and leaves the machine unchanged. -/
theorem busRead_snd_high (s : NES) (a : Nat) (h : 0x4020 ≤ a) :
    (busRead s a).2 = s := by
  have h1 : isInRange a 0x0000 0x1FFF = false := isInRange_false_of_gt (by omega)
  have h2 : isInRange a 0x2000 0x3FFF = false := isInRange_false_of_gt (by omega)
  have h3 : isInRange a 0x4016 0x4017 = false := isInRange_false_of_gt (by omega)
  have h4 : isInRange a 0x4018 0x401F = false := isInRange_false_of_gt (by omega)
  have h5 : (a == 0x4015) = false := by simp; omega
  cases hm : s.rom.cpuRead a with
  | null => simp [busRead, hm, h1, h2, h3, h4, h5]
  | undefined => simp [busRead, hm]
  | num n => simp [busRead, hm]

/-- `busReadN` at or above 0x4020 leaves the machine unchanged. -/
theorem busReadN_snd_high (s : NES) (a : Nat) (h : 0x4020 ≤ a) :
    (busReadN s a).2 = s := by
  simp [busReadN, busRead_snd_high s a h]

/-- `writeToStack` with a byte-valued stack pointer leaves the PPU
unchanged. -/
theorem writeToStack_ppu (s : NES) (v : Nat) (h : s.cpu.sp < 256) :
    (CPU.writeToStack s v).ppu = s.ppu := by
  have hb := busWrite_ppu_low s (0x0100 + s.cpu.sp) v (by omega)
  simp [CPU.writeToStack, hb]

/-- After `writeToStack` the stack pointer is again a byte. -/
theorem writeToStack_sp (s : NES) (v : Nat) : (CPU.writeToStack s v).cpu.sp < 256 := by
  simp only [CPU.writeToStack, Register.decr]
  omega

set_option maxRecDepth 8192 in
set_option maxHeartbeats 1000000 in
/-- `CPU.NMI` started with a byte-valued stack pointer leaves the PPU
unchanged: all its bus writes go to the stack page and its vector reads go
to cartridge space. -/
theorem NMI_preserves_ppu (s : NES) (h : s.cpu.sp < 256) : (CPU.NMI s).ppu = s.ppu := by
  simp only [CPU.NMI, CPU.psClearBit, CPU.psSetBit, CPU.withPS]
  set t1 := CPU.writeToStack s (s.cpu.pc >>> 8 &&& 255) with ht1
  have h1ppu : t1.ppu = s.ppu := writeToStack_ppu s _ h
  have h1sp : t1.cpu.sp < 256 := writeToStack_sp s _
  set t2 := CPU.writeToStack t1 (t1.cpu.pc &&& 255) with ht2
  have h2ppu : t2.ppu = t1.ppu := writeToStack_ppu t1 _ h1sp
  have h2sp : t2.cpu.sp < 256 := writeToStack_sp t1 _
  set t3 : NES := ⟨⟨t2.cpu.pc, t2.cpu.sp, t2.cpu.acc, t2.cpu.irx, t2.cpu.iry,
      Register.setBit 8 (Register.clearBit 8 t2.cpu.ps 4) 2, t2.cpu.fetched,
      t2.cpu.absAddress, t2.cpu.relAddress, t2.cpu.opcode, t2.cpu.cycles,
      t2.cpu.internalClock⟩, t2.ppu, t2.rom, t2.cpuRAM, t2.controller,
      t2.controllerState, t2.systemClock⟩ with ht3
  have h3sp : t3.cpu.sp < 256 := h2sp
  set t4 := CPU.writeToStack t3 (Register.setBit 8 (Register.clearBit 8 t2.cpu.ps 4) 2) with ht4
  have h4ppu : t4.ppu = t3.ppu := writeToStack_ppu t3 _ h3sp
  set t5 : NES := ⟨⟨t4.cpu.pc, t4.cpu.sp, t4.cpu.acc, t4.cpu.irx, t4.cpu.iry,
      t4.cpu.ps, t4.cpu.fetched, 65530, t4.cpu.relAddress, t4.cpu.opcode,
      t4.cpu.cycles, t4.cpu.internalClock⟩, t4.ppu, t4.rom, t4.cpuRAM,
      t4.controller, t4.controllerState, t4.systemClock⟩ with ht5
  have hr1 : (busReadN t5 65530).2 = t5 := busReadN_snd_high t5 65530 (by norm_num)
  rw [hr1]
  have habs : t5.cpu.absAddress = 65530 := rfl
  rw [habs]
  have hr2 : (busReadN t5 (65530 + 1)).2 = t5 := busReadN_snd_high t5 _ (by norm_num)
  rw [hr2, ht5]
  dsimp only
  rw [h4ppu, ht3]
  dsimp only
  rw [h2ppu, h1ppu]

/-- C8: one `Bus.clock` call ticks the PPU exactly once; the CPU ticks
exactly on the calls where the pre-call system counter is divisible by 3
(so on the first call and every third one); the recorded actions always
occur in the order PPU tick, CPU tick, NMI delivery; and when the one-shot
NMI edge is set after the tick phase the bus delivers NMI exactly once and
the edge ends the call cleared, while otherwise no NMI is delivered and
the PPU is left exactly as the tick phase produced it.  The hypothesis
restates the JavaScript invariant that the stack pointer (a Uint8Array
cell) holds a byte. -/
theorem c8_busClock_orders_ppu_cpu_nmi (s : NES)
    (hsp : (busClockTickPhase s).cpu.sp < 256) :
    (busClock s).2.count Event.ppuTick = 1 ∧
    ((busClock s).2.count Event.cpuTick = if s.systemClock % 3 = 0 then 1 else 0) ∧
    (busClock s).2.Sublist [Event.ppuTick, Event.cpuTick, Event.nmiDeliver] ∧
    ((busClockTickPhase s).ppu.nmi = true →
      (busClock s).2.count Event.nmiDeliver = 1 ∧ (busClock s).1.ppu.nmi = false) ∧
    ((busClockTickPhase s).ppu.nmi = false →
      (busClock s).2.count Event.nmiDeliver = 0 ∧
      (busClock s).1.ppu = (busClockTickPhase s).ppu) ∧
    (busClock s).1.systemClock = s.systemClock + 1 := by
  by_cases h3 : s.systemClock % 3 = 0
  · have hmid : busClockTickPhase s = CPU.clock { s with ppu := PPUState.clock s.rom s.ppu } := by
      simp [busClockTickPhase, h3]
    rw [hmid] at hsp
    by_cases hn : (CPU.clock { s with ppu := PPUState.clock s.rom s.ppu }).ppu.nmi = true
    · have htr : (busClock s).2 = [Event.ppuTick, Event.cpuTick, Event.nmiDeliver] := by
        simp [busClock, h3, hn]
      have hst : (busClock s).1 =
          { CPU.NMI { CPU.clock { s with ppu := PPUState.clock s.rom s.ppu } with
              ppu := { (CPU.clock { s with ppu := PPUState.clock s.rom s.ppu }).ppu with nmi := false } } with
            systemClock := s.systemClock + 1 } := by
        simp [busClock, h3, hn]
      refine ⟨?_, ?_, ?_, ?_, ?_, ?_⟩
      · rw [htr]; decide
      · rw [htr, if_pos h3]; decide
      · rw [htr]
      · intro _
        refine ⟨by rw [htr]; decide, ?_⟩
        rw [hst]
        have hppu := NMI_preserves_ppu
          { CPU.clock { s with ppu := PPUState.clock s.rom s.ppu } with
              ppu := { (CPU.clock { s with ppu := PPUState.clock s.rom s.ppu }).ppu with nmi := false } }
          hsp
        simp only [hppu]
      · intro hfalse
        rw [hmid] at hfalse
        rw [hfalse] at hn
        simp at hn
      · rw [hst]
    · have hn2 : (CPU.clock { s with ppu := PPUState.clock s.rom s.ppu }).ppu.nmi = false := by
        revert hn
        cases (CPU.clock { s with ppu := PPUState.clock s.rom s.ppu }).ppu.nmi <;> simp
      have htr : (busClock s).2 = [Event.ppuTick, Event.cpuTick] := by
        simp [busClock, h3, hn2]
      have hst : (busClock s).1 =
          { CPU.clock { s with ppu := PPUState.clock s.rom s.ppu } with
            systemClock := s.systemClock + 1 } := by
        simp [busClock, h3, hn2]
      refine ⟨?_, ?_, ?_, ?_, ?_, ?_⟩
      · rw [htr]; decide
      · rw [htr, if_pos h3]; decide
      · rw [htr]; decide
      · intro htrue
        rw [hmid] at htrue
        rw [htrue] at hn2
        simp at hn2
      · intro _
        refine ⟨by rw [htr]; decide, ?_⟩
        rw [hst, hmid]
      · rw [hst]
  · have hmid : busClockTickPhase s = { s with ppu := PPUState.clock s.rom s.ppu } := by
      simp [busClockTickPhase, h3]
    by_cases hn : (PPUState.clock s.rom s.ppu).nmi = true
    · have htr : (busClock s).2 = [Event.ppuTick, Event.nmiDeliver] := by
        simp [busClock, h3, hn]
      have hst : (busClock s).1 =
          { CPU.NMI { s with ppu := { PPUState.clock s.rom s.ppu with nmi := false } } with
            systemClock := s.systemClock + 1 } := by
        simp [busClock, h3, hn]
      refine ⟨?_, ?_, ?_, ?_, ?_, ?_⟩
      · rw [htr]; decide
      · rw [htr, if_neg h3]; decide
      · rw [htr]; decide
      · intro _
        refine ⟨by rw [htr]; decide, ?_⟩
        rw [hst]
        have hsp2 : ({ s with ppu := { PPUState.clock s.rom s.ppu with nmi := false } } : NES).cpu.sp < 256 := by
          rw [hmid] at hsp
          exact hsp
        have hppu := NMI_preserves_ppu
          { s with ppu := { PPUState.clock s.rom s.ppu with nmi := false } } hsp2
        simp only [hppu]
      · intro hfalse
        rw [hmid] at hfalse
        simp only at hfalse
        rw [hfalse] at hn
        simp at hn
      · rw [hst]
    · have hn2 : (PPUState.clock s.rom s.ppu).nmi = false := by
        revert hn
        cases (PPUState.clock s.rom s.ppu).nmi <;> simp
      have htr : (busClock s).2 = [Event.ppuTick] := by
        simp [busClock, h3, hn2]
      have hst : (busClock s).1 =
          { s with ppu := PPUState.clock s.rom s.ppu, systemClock := s.systemClock + 1 } := by
        simp [busClock, h3, hn2]
      refine ⟨?_, ?_, ?_, ?_, ?_, ?_⟩
      · rw [htr]; decide
      · rw [htr, if_neg h3]; decide
      · rw [htr]; decide
      · intro htrue
        rw [hmid] at htrue
        simp only at htrue
        rw [htrue] at hn2
        simp at hn2
      · intro _
        refine ⟨by rw [htr]; decide, ?_⟩
        rw [hst, hmid]
      · rw [hst]

/-- A PPU state deep inside vertical blanking with the NMI edge raised. -/
def ppuVB : PPUState := { PPUState.init with scanline := 250, cycle := 10, nmi := true }

/-- A machine one system tick in (so this call does not tick the CPU), with
the NMI edge pending. -/
def nesC8 : NES := { mkNES romZero (fun _ => 0) with systemClock := 1, ppu := ppuVB }

/-- C8 witness: on the concrete machine `nesC8` a single `Bus.clock` call
records one PPU tick, no CPU tick, one NMI delivery, and ends with the NMI
edge cleared. -/
theorem c8_witness_single_call :
    (busClock nesC8).2.count Event.ppuTick = 1 ∧
    (busClock nesC8).2.count Event.cpuTick = 0 ∧
    (busClock nesC8).2.count Event.nmiDeliver = 1 ∧
    (busClock nesC8).1.ppu.nmi = false := by
  have h := c8_busClock_orders_ppu_cpu_nmi nesC8 (by decide)
  refine ⟨h.1, ?_, ?_, ?_⟩
  · have h2 := h.2.1
    rw [if_neg (by decide)] at h2
    exact h2
  · exact (h.2.2.2.1 (by decide)).1
  · exact (h.2.2.2.1 (by decide)).2

end NesEmu
